import Mathlib

/-!
# The Qualcomm hardware composer entry points (libhwcomposer/hwc.cpp)

A shallow embedding of `hwc_prepare`, `hwc_set`, `hwc_blank` and
`hwc_eventControl`.

* The device context is an explicit record that every entry point receives
  and returns.
* Everything hwc.cpp merely calls (strategy classes, overlay object, buffer
  store, external display, EGL, the framebuffer driver) is a field of
  `Collaborators`: an arbitrary function whose result the entry point uses
  the way the source does.  A collaborator that is handed `ctx` may change
  the whole context; one that is not works on the outside world `W` only.
* Every effectful call the entry point makes is appended to `trace`, in
  program order, so that statements about the order of calls are statements
  about a list.  Pure getters (`getExternalDisplay`, `isHDMIConfigured`,
  `getState`, `getMDPVersion`) are reads and leave no trace entry.
* Dereferencing a null `hwc_display_contents_1_t*` is a fault: the entry
  point then has no result (`none`).
-/

namespace qhwc

/-- Overlay states: the two that hwc.cpp names, and every other value of the enum. -/
inductive eOverlayState where
  | OV_CLOSED
  | OV_BYPASS_3_LAYER
  | OV_OTHER (code : Nat)
  deriving DecidableEq, Repr

/-- The classes whose static `reset`, `prepare`/`configure` and `draw` hwc.cpp calls. -/
inductive Component where
  | VideoOverlay
  | VideoPIP
  | ExtOnly
  | UIMirrorOverlay
  | MDPComp
  | CopyBit
  deriving DecidableEq, Repr

/-- Modelled from the spec: the post-completion and pan-completion waits are
bounded blocking calls that end with a result or a timeout (spec sections 5 and 9);
`wait4fbPost` and `wait4Pan` themselves are declared outside hwc.cpp. -/
inductive WaitResult where
  | completed
  | timedOut
  deriving DecidableEq, Repr

/-- One effectful call made by an entry point of hwc.cpp. -/
inductive Call where
  | setExtType (type : Int)
  | processUEventOnline
  | reset (c : Component)
  | getLayerStats
  | prepare (c : Component) (claimed : Bool)
  | checkforGPULayer
  | setState (st : eOverlayState)
  | unlockAll
  | unlockAllPrevious
  | draw (c : Component)
  | eglSwapBuffers (dpy sur : Nat)
  | wait4fbPost
  | wait4Pan
  | commit
  | ioctl_vsync_ctrl (enabled : Int)
  | mutex_lock
  | cond_signal
  | mutex_unlock
  | enableHDMIVsync (enabled : Int)
  | alogd
  deriving DecidableEq, Repr

/-- A layer descriptor; hwc.cpp never looks inside one. -/
structure hwc_layer_1_t where
  compositionType : Int
  hints : Nat
  flags : Nat
  handle : Nat
  deriving DecidableEq, Repr

/-- The per-display frame contents: `dpy`/`sur` are the presentation target
(0 is the null handle), `hwLayers` has `numHwLayers` entries. -/
structure hwc_display_contents_1_t where
  dpy : Nat
  sur : Nat
  flags : Nat
  hwLayers : List hwc_layer_1_t
  deriving DecidableEq, Repr

/-- Modelled from the spec: the buffer tracker (`ctx->qbuf`, declared in hwc_qbuf.h)
holds the buffers currently locked for the display plus the previous frame's set
that is pending release. -/
structure QueuedBufferStore where
  current : List Nat
  previous : List Nat
  deriving DecidableEq, Repr

/-- Modelled from the spec: `unlockAll` of the buffer tracker releases all locked buffers. -/
def QueuedBufferStore.unlockAll (_q : QueuedBufferStore) : QueuedBufferStore :=
  { current := [], previous := [] }

/-- Modelled from the spec: `unlockAllPrevious` of the buffer tracker releases every
buffer held from the previous frame, not the current one. -/
def QueuedBufferStore.unlockAllPrevious (q : QueuedBufferStore) : QueuedBufferStore :=
  { q with previous := [] }

/-- The set of locked buffers of the tracker is empty. -/
def QueuedBufferStore.isEmpty (q : QueuedBufferStore) : Bool :=
  q.current.isEmpty && q.previous.isEmpty

/-- The fields of `hwc_context_t` that hwc.cpp reads or writes. -/
structure hwc_context_t where
  overlayInUse : Bool
  mSecureConfig : Bool
  hdmi_pending : Bool
  mHDMIEvent : String
  dpys : Nat → Nat
  vstate_enable : Bool
  hasOverlay : Bool
  mOverlay : eOverlayState
  qbuf : QueuedBufferStore

/-- The whole mutable state an entry point works on: the context, the world
outside hwc.cpp (`W`: statics of the strategy classes, the external display
object, EGL, the driver), the two function statics of `hwc_eventControl`, and
the calls made so far. -/
structure HwcState (W : Type) where
  ctx : hwc_context_t
  world : W
  prev_value : Int
  temp : Int
  trace : List Call

/-- Everything hwc.cpp uses but does not define: constants of absent headers,
the build switch `NO_HW_VSYNC`, and the collaborators as functions. -/
structure Collaborators (W : Type) where
  HWC_EVENT_VSYNC : Int
  EINVAL : Int
  EXTERN_DISPLAY_FB1 : Int
  MDP_V4_2 : Int
  NO_HW_VSYNC : Bool
  getExternalDisplay : W → Int
  isHDMIConfigured : W → Bool
  setExtType : Int → W → W
  getMDPVersion : W → Int
  processUEventOnline : String → W → W
  reset : Component → W → W
  getLayerStats : hwc_context_t → W → hwc_display_contents_1_t →
    hwc_context_t × W × hwc_display_contents_1_t
  prepare : Component → hwc_context_t → W → hwc_display_contents_1_t →
    Bool × hwc_context_t × W × hwc_display_contents_1_t
  checkforGPULayer : W → hwc_display_contents_1_t → W × hwc_display_contents_1_t
  draw : Component → hwc_context_t → W → hwc_display_contents_1_t →
    hwc_context_t × W × hwc_display_contents_1_t
  drawUIMirror : hwc_context_t → W → hwc_context_t × W
  eglSwapBuffers : Nat → Nat → W → W
  wait4fbPost : hwc_context_t → W → WaitResult × hwc_context_t × W
  wait4Pan : hwc_context_t → W → WaitResult × hwc_context_t × W
  commit : W → W
  ioctl_vsync_ctrl : Int → W → Int × Int × W
  enableHDMIVsync : Int → W → Int × W

/-- The macro `VSYNC_DEBUG`, defined as 0 in hwc.cpp. -/
def VSYNC_DEBUG : Bool := false

section Helpers

variable {W : Type}

/-- Append one call to the trace. -/
def HwcState.emit (s : HwcState W) (c : Call) : HwcState W :=
  { s with trace := s.trace ++ [c] }

/-- The logging macro `ALOGD_IF(cond, ...)`: a debug line when `cond` holds. -/
def ALOGD_IF (cond : Bool) (s : HwcState W) : HwcState W :=
  if cond then s.emit Call.alogd else s

/-- The call `ctx->mOverlay->setState(st)`. -/
def setState (s : HwcState W) (st : eOverlayState) : HwcState W :=
  { s with ctx := { s.ctx with mOverlay := st }, trace := s.trace ++ [Call.setState st] }

/-- The call `ctx->qbuf->unlockAll()`. -/
def unlockAll (s : HwcState W) : HwcState W :=
  { s with ctx := { s.ctx with qbuf := s.ctx.qbuf.unlockAll },
           trace := s.trace ++ [Call.unlockAll] }

/-- The call `ctx->qbuf->unlockAllPrevious()`. -/
def unlockAllPrevious (s : HwcState W) : HwcState W :=
  { s with ctx := { s.ctx with qbuf := s.ctx.qbuf.unlockAllPrevious },
           trace := s.trace ++ [Call.unlockAllPrevious] }

/-- The assignment `ctx->overlayInUse = b`. -/
def setOverlayInUse (s : HwcState W) (b : Bool) : HwcState W :=
  { s with ctx := { s.ctx with overlayInUse := b } }

end Helpers

section Blank

variable {W : Type}

/-- Entry point `hwc_blank` (hwc.cpp lines 200-211). -/
def hwc_blank (s : HwcState W) (_dpy : Int) (blank : Int) : Int × HwcState W :=
  if blank ≠ 0 then
    let s1 := setOverlayInUse s false
    let s2 := setState s1 eOverlayState.OV_CLOSED
    let s3 := unlockAll s2
    (0, s3)
  else
    (0, s)

end Blank

section EventControl

variable {W : Type}

/-- The `ioctl(m->framebuffer->fd, MSMFB_OVERLAY_VSYNC_CTRL, &enabled)` step of
`hwc_eventControl`, compiled in unless `NO_HW_VSYNC` is defined: the new value of
`ret` and the state after the call. -/
def vsync_ioctl (env : Collaborators W) (s : HwcState W) (enabled : Int) (ret : Int) :
    Int × HwcState W :=
  if env.NO_HW_VSYNC then (ret, s)
  else
    let r := env.ioctl_vsync_ctrl enabled s.world
    let s1 : HwcState W :=
      { s with world := r.2.2, trace := s.trace ++ [Call.ioctl_vsync_ctrl enabled] }
    (if r.1 < 0 then -r.2.1 else ret, s1)

/-- The block under `if (enabled == 1)`: unblock the vsync thread. -/
def vsync_unblock (s : HwcState W) : HwcState W :=
  { s with ctx := { s.ctx with vstate_enable := true },
           trace := s.trace ++ [Call.mutex_lock, Call.cond_signal, Call.mutex_unlock] }

/-- The block under `if (enabled == 0 && temp)`: the vsync thread will block. -/
def vsync_block (s : HwcState W) : HwcState W :=
  { s with ctx := { s.ctx with vstate_enable := false },
           trace := s.trace ++ [Call.mutex_lock, Call.mutex_unlock] }

/-- The block between the comments "vsync state change logic" and "vsync state
change logic - end" (lines 170-185). -/
def vsync_state_change (s : HwcState W) (enabled : Int) : HwcState W :=
  let s1 := if enabled = 1 then vsync_unblock s else s
  let s2 := if enabled = 0 ∧ s1.temp ≠ 0 then vsync_block s1 else s1
  let s3 := ALOGD_IF VSYNC_DEBUG s2
  { s3 with prev_value := enabled }

/-- The external display branch (lines 188-192): when HDMI is configured and the
external display is FB1, `ret` is assigned the status of `enableHDMIVsync`. -/
def vsync_external (env : Collaborators W) (s : HwcState W) (enabled : Int) (ret : Int) :
    Int × HwcState W :=
  if env.isHDMIConfigured s.world = true ∧
      env.getExternalDisplay s.world = env.EXTERN_DISPLAY_FB1 then
    let h := env.enableHDMIVsync enabled s.world
    (h.1, { s with world := h.2, trace := s.trace ++ [Call.enableHDMIVsync enabled] })
  else
    (ret, s)

/-- Entry point `hwc_eventControl` (hwc.cpp lines 148-198).  `ret` starts at 0, the
primary ioctl may set it, and the external display branch assigns it again. -/
def hwc_eventControl (env : Collaborators W) (s : HwcState W) (_dpy : Int)
    (event : Int) (enabled : Int) : Int × HwcState W :=
  let ret : Int := 0
  if event = env.HWC_EVENT_VSYNC then
    let s1 := if enabled = s.prev_value then ALOGD_IF VSYNC_DEBUG s else s
    let s2 : HwcState W := { s1 with temp := if s1.ctx.vstate_enable = true then 1 else 0 }
    let r := vsync_ioctl env s2 enabled ret
    let s3 := vsync_state_change r.2 enabled
    vsync_external env s3 enabled r.1
  else
    (-env.EINVAL, s)

end EventControl

section Prepare

variable {W : Type}

/-- A static `reset()` of a strategy class. -/
def callReset (env : Collaborators W) (c : Component) (s : HwcState W) : HwcState W :=
  { s with world := env.reset c s.world, trace := s.trace ++ [Call.reset c] }

/-- The call `getLayerStats(ctx, list)`. -/
def callGetLayerStats (env : Collaborators W)
    (p : HwcState W × hwc_display_contents_1_t) : HwcState W × hwc_display_contents_1_t :=
  let r := env.getLayerStats p.1.ctx p.1.world p.2
  ({ p.1 with ctx := r.1, world := r.2.1, trace := p.1.trace ++ [Call.getLayerStats] }, r.2.2)

/-- A strategy's `prepare(ctx, list)` (for MDPComp: `configure(dev, list)`): its
boolean answer, and the state and list it leaves. -/
def callPrepare (env : Collaborators W) (c : Component)
    (p : HwcState W × hwc_display_contents_1_t) :
    Bool × (HwcState W × hwc_display_contents_1_t) :=
  let r := env.prepare c p.1.ctx p.1.world p.2
  (r.1, ({ p.1 with ctx := r.2.1, world := r.2.2.1,
                    trace := p.1.trace ++ [Call.prepare c r.1] }, r.2.2.2))

/-- The call `qdutils::CBUtils::checkforGPULayer(list)`: it is not given the context. -/
def callCheckforGPULayer (env : Collaborators W)
    (p : HwcState W × hwc_display_contents_1_t) : HwcState W × hwc_display_contents_1_t :=
  let r := env.checkforGPULayer p.1.world p.2
  ({ p.1 with world := r.1, trace := p.1.trace ++ [Call.checkforGPULayer] }, r.2)

/-- The `if / else if` chain of hwc.cpp lines 117-135, the dead `else if (0)`
arm included. -/
def prepare_chain (env : Collaborators W)
    (p : HwcState W × hwc_display_contents_1_t) : HwcState W × hwc_display_contents_1_t :=
  let r1 := callPrepare env Component.VideoOverlay p
  if r1.1 then (setOverlayInUse r1.2.1 true, r1.2.2)
  else
    let r2 := callPrepare env Component.VideoPIP r1.2
    if r2.1 then (setOverlayInUse r2.2.1 true, r2.2.2)
    else
      let r3 := callPrepare env Component.ExtOnly r2.2
      if r3.1 then (setOverlayInUse r3.2.1 true, r3.2.2)
      else
        let r4 := callPrepare env Component.UIMirrorOverlay r3.2
        if r4.1 then (setOverlayInUse r4.2.1 true, r4.2.2)
        else
          let r5 := callPrepare env Component.MDPComp r4.2
          if r5.1 then (setOverlayInUse r5.2.1 true, r5.2.2)
          else if false then (setOverlayInUse r5.2.1 true, r5.2.2)
          else (setState (setOverlayInUse r5.2.1 false) eOverlayState.OV_CLOSED, r5.2.2)

/-- The branch of the loop body taken for a non-null list (lines 109-136). -/
def prepare_list (env : Collaborators W) (s : HwcState W) (l : hwc_display_contents_1_t) :
    HwcState W × hwc_display_contents_1_t :=
  let s1 := callReset env Component.VideoOverlay s
  let s2 := callReset env Component.VideoPIP s1
  let s3 := callReset env Component.ExtOnly s2
  let p4 := callGetLayerStats env (s3, l)
  let p5 := (callPrepare env Component.CopyBit p4).2
  let p6 := prepare_chain env p5
  callCheckforGPULayer env p6

/-- The branch of the loop body written for a null list (lines 139-141). -/
def prepare_nolist (s : HwcState W) : HwcState W :=
  unlockAll (setState (setOverlayInUse s false) eOverlayState.OV_CLOSED)

/-- The assignment `ctx->dpys[i] = dpy`. -/
def setDpy (s : HwcState W) (i dpy : Nat) : HwcState W :=
  { s with ctx := { s.ctx with dpys := Function.update s.ctx.dpys i dpy } }

/-- One iteration of the loop of `hwc_prepare` (lines 105-143) for display `i`.
Line 106 reads `list->dpy` before line 108 tests `list`, so a null list faults. -/
def hwc_prepare_display (env : Collaborators W) (i : Nat) (s : HwcState W)
    (list : Option hwc_display_contents_1_t) :
    Option (HwcState W × Option hwc_display_contents_1_t) :=
  match list.map (fun l => l.dpy) with
  | none => none
  | some dpy =>
    let s1 := setDpy s i dpy
    match list with
    | some l =>
      let p := prepare_list env s1 l
      some (p.1, some p.2)
    | none => some (prepare_nolist s1, none)

/-- The loop of `hwc_prepare` over `displays[i]`, `i` counting up from the given index. -/
def hwc_prepare_loop (env : Collaborators W) :
    Nat → HwcState W → List (Option hwc_display_contents_1_t) →
    Option (HwcState W × List (Option hwc_display_contents_1_t))
  | _, s, [] => some (s, [])
  | i, s, d :: ds =>
    match hwc_prepare_display env i s d with
    | none => none
    | some r =>
      match hwc_prepare_loop env (i + 1) r.1 ds with
      | none => none
      | some rs => some (rs.1, r.2 :: rs.2)

/-- The statement of lines 94-95: tell the overlay utilities the external display type. -/
def prepare_setExtType (env : Collaborators W) (s : HwcState W) : HwcState W :=
  if env.getExternalDisplay s.world ≠ 0 then
    { s with world := env.setExtType (env.getExternalDisplay s.world) s.world,
             trace := s.trace ++ [Call.setExtType (env.getExternalDisplay s.world)] }
  else s

/-- The statement of lines 96-103: finish a pending HDMI attach. -/
def prepare_hdmi_pending (env : Collaborators W) (s : HwcState W) : HwcState W :=
  if s.ctx.hdmi_pending = true then
    if env.getMDPVersion s.world ≥ env.MDP_V4_2 ∨
        s.ctx.mOverlay ≠ eOverlayState.OV_BYPASS_3_LAYER then
      { s with world := env.processUEventOnline s.ctx.mHDMIEvent s.world,
               ctx := { s.ctx with hdmi_pending := false },
               trace := s.trace ++ [Call.processUEventOnline] }
    else s
  else s

/-- The statements of `hwc_prepare` between the secure-session test and the loop
(lines 94-103). -/
def prepare_external (env : Collaborators W) (s : HwcState W) : HwcState W :=
  prepare_hdmi_pending env (prepare_setExtType env s)

/-- Entry point `hwc_prepare` (hwc.cpp lines 83-146); `numDisplays` is the length of
`displays`.  The result is the returned status, the state, and the lists as the
collaborators left them; `none` is a fault. -/
def hwc_prepare (env : Collaborators W) (s : HwcState W)
    (displays : List (Option hwc_display_contents_1_t)) :
    Option (Int × HwcState W × List (Option hwc_display_contents_1_t)) :=
  let s0 := setOverlayInUse s false
  if s0.ctx.mSecureConfig = true then some (0, s0, displays)
  else
    match hwc_prepare_loop env 0 (prepare_external env s0) displays with
    | none => none
    | some r => some (0, r.1, r.2)

end Prepare

section Set

variable {W : Type}

/-- A strategy's `draw(ctx, list)` (for CopyBit: `draw(ctx, list, dpy, sur)`); the
returned status is dropped by the caller. -/
def callDraw (env : Collaborators W) (c : Component)
    (p : HwcState W × hwc_display_contents_1_t) : HwcState W × hwc_display_contents_1_t :=
  let r := env.draw c p.1.ctx p.1.world p.2
  ({ p.1 with ctx := r.1, world := r.2.1, trace := p.1.trace ++ [Call.draw c] }, r.2.2)

/-- The call `eglSwapBuffers(list->dpy, list->sur)`. -/
def callSwap (env : Collaborators W) (s : HwcState W) (dpy sur : Nat) : HwcState W :=
  { s with world := env.eglSwapBuffers dpy sur s.world,
           trace := s.trace ++ [Call.eglSwapBuffers dpy sur] }

/-- The call `wait4fbPost(ctx)`; hwc.cpp uses it as a statement. -/
def callWait4fbPost (env : Collaborators W) (s : HwcState W) : HwcState W :=
  let r := env.wait4fbPost s.ctx s.world
  { s with ctx := r.2.1, world := r.2.2, trace := s.trace ++ [Call.wait4fbPost] }

/-- The call `wait4Pan(ctx)`; hwc.cpp uses it as a statement. -/
def callWait4Pan (env : Collaborators W) (s : HwcState W) : HwcState W :=
  let r := env.wait4Pan s.ctx s.world
  { s with ctx := r.2.1, world := r.2.2, trace := s.trace ++ [Call.wait4Pan] }

/-- The call `UIMirrorOverlay::draw(ctx)`. -/
def callDrawUIMirror (env : Collaborators W) (s : HwcState W) : HwcState W :=
  let r := env.drawUIMirror s.ctx s.world
  { s with ctx := r.1, world := r.2, trace := s.trace ++ [Call.draw Component.UIMirrorOverlay] }

/-- The statement `if(ctx->mExtDisplay->getExternalDisplay()) ctx->mExtDisplay->commit();`. -/
def callCommit (env : Collaborators W) (s : HwcState W) : HwcState W :=
  if env.getExternalDisplay s.world ≠ 0 then
    { s with world := env.commit s.world, trace := s.trace ++ [Call.commit] }
  else s

/-- The five draw calls of lines 246-250. -/
def set_draws (env : Collaborators W)
    (p : HwcState W × hwc_display_contents_1_t) : HwcState W × hwc_display_contents_1_t :=
  let p1 := callDraw env Component.VideoOverlay p
  let p2 := callDraw env Component.VideoPIP p1
  let p3 := callDraw env Component.ExtOnly p2
  let p4 := callDraw env Component.CopyBit p3
  callDraw env Component.MDPComp p4

/-- The block under `if (ctx->mMDP.hasOverlay)` (lines 254-261). -/
def set_post (env : Collaborators W) (s : HwcState W) : HwcState W :=
  let s1 := callWait4fbPost env s
  let s2 := callDrawUIMirror env s1
  let s3 := callCommit env s2
  callWait4Pan env s3

/-- One iteration of the loop of `hwc_set` (lines 243-266).  Line 244 reads
`list->dpy`, so a null list faults; past that read `LIKELY(list)` holds. -/
def hwc_set_display (env : Collaborators W) (s : HwcState W)
    (list : Option hwc_display_contents_1_t) :
    Option (HwcState W × Option hwc_display_contents_1_t) :=
  match list with
  | none => none
  | some l =>
    if l.dpy ≠ 0 ∧ l.sur ≠ 0 then
      let p := set_draws env (s, l)
      let s1 := callSwap env p.1 p.2.dpy p.2.sur
      let s2 := if s1.ctx.hasOverlay = true then set_post env s1 else s1
      some (s2, some p.2)
    else
      some (unlockAll (setState s eOverlayState.OV_CLOSED), some l)

/-- The loop of `hwc_set` over the displays. -/
def hwc_set_loop (env : Collaborators W) :
    HwcState W → List (Option hwc_display_contents_1_t) →
    Option (HwcState W × List (Option hwc_display_contents_1_t))
  | s, [] => some (s, [])
  | s, d :: ds =>
    match hwc_set_display env s d with
    | none => none
    | some r =>
      match hwc_set_loop env r.1 ds with
      | none => none
      | some rs => some (rs.1, r.2 :: rs.2)

/-- Entry point `hwc_set` (hwc.cpp lines 236-271); `ret` is initialised to 0 and
never assigned again. -/
def hwc_set (env : Collaborators W) (s : HwcState W)
    (displays : List (Option hwc_display_contents_1_t)) :
    Option (Int × HwcState W × List (Option hwc_display_contents_1_t)) :=
  let ret : Int := 0
  match hwc_set_loop env s displays with
  | none => none
  | some r => some (ret, unlockAllPrevious r.1, r.2)

end Set

section Specification

/-- The strategies whose applicability hwc_prepare asks for, in the order of the
`if / else if` chain. -/
def strategyOrder : List Component :=
  [Component.VideoOverlay, Component.VideoPIP, Component.ExtOnly,
   Component.UIMirrorOverlay, Component.MDPComp]

/-- The applicability answers recorded in a trace, in call order.  The
unconditional `CopyBit::prepare` that precedes the chain is not one of them. -/
def consulted (t : List Call) : List (Component × Bool) :=
  t.filterMap fun c =>
    match c with
    | Call.prepare Component.CopyBit _ => none
    | Call.prepare k r => some (k, r)
    | _ => none

/-- The calls the spec lists for one display with a valid presentation target:
the five draws, the swap, and, with an overlay backend (`ov`), the post wait, the
UI mirror draw, the external commit when an external display is attached (`ext`),
and the pan wait. -/
def displayBlock (dpy sur : Nat) (ov ext : Bool) : List Call :=
  [Call.draw Component.VideoOverlay, Call.draw Component.VideoPIP,
   Call.draw Component.ExtOnly, Call.draw Component.CopyBit,
   Call.draw Component.MDPComp, Call.eglSwapBuffers dpy sur] ++
  (if ov then
    [Call.wait4fbPost, Call.draw Component.UIMirrorOverlay] ++
    (if ext then [Call.commit] else []) ++ [Call.wait4Pan]
   else [])

/-- The calls of the chain when the strategy at position `k` is the first to
apply: `k` refusals, then one acceptance. -/
def chainClaimed (k : Nat) (c : Component) : List Call :=
  (strategyOrder.take k).map (fun x => Call.prepare x false) ++ [Call.prepare c true]

/-- The calls of the chain when no strategy applies: five refusals, then the
overlay is closed. -/
def chainRefused : List Call :=
  strategyOrder.map (fun x => Call.prepare x false) ++ [Call.setState eOverlayState.OV_CLOSED]

/-- The calls that open the branch for a non-null list, `b` being what
`CopyBit::prepare` returned. -/
def listPrologue (b : Bool) : List Call :=
  [Call.reset Component.VideoOverlay, Call.reset Component.VideoPIP,
   Call.reset Component.ExtOnly, Call.getLayerStats, Call.prepare Component.CopyBit b]

/-- A call of the statements that precede the loop of hwc_prepare. -/
def Call.isExternalSetup (c : Call) : Bool :=
  match c with
  | Call.setExtType _ => true
  | Call.processUEventOnline => true
  | _ => false

/-- What the chain leaves behind: the calls `t` it made and the context `ctx`
after it.  Either the strategy at some position of `strategyOrder` claimed the
frame after all earlier ones refused, or all five refused. -/
def ChainResult (t : List Call) (ctx : hwc_context_t) : Prop :=
  (∃ k c, strategyOrder[k]? = some c ∧ t = chainClaimed k c ∧ ctx.overlayInUse = true) ∨
  (t = chainRefused ∧ ctx.overlayInUse = false ∧ ctx.mOverlay = eOverlayState.OV_CLOSED)

/-- The calls of the vsync state change block of hwc_eventControl, `temp` being the
saved flag: lock, signal, unlock on enable; lock, unlock on a disable that finds
the flag set; nothing otherwise. -/
def stateChangeCalls (enabled temp : Int) : List Call :=
  if enabled = 1 then [Call.mutex_lock, Call.cond_signal, Call.mutex_unlock]
  else if enabled = 0 ∧ temp ≠ 0 then [Call.mutex_lock, Call.mutex_unlock]
  else []

/-- What the collaborators work on during one display's turn: the context, the
outside world and the display's list. -/
structure Frame (W : Type) where
  ctx : hwc_context_t
  world : W
  list : hwc_display_contents_1_t

/-- The answer of strategy `c` when asked on frame `f`. -/
def answer {W : Type} (env : Collaborators W) (c : Component) (f : Frame W) : Bool :=
  (env.prepare c f.ctx f.world f.list).1

/-- The frame strategy `c` leaves when asked on frame `f`. -/
def asked {W : Type} (env : Collaborators W) (c : Component) (f : Frame W) : Frame W :=
  { ctx := (env.prepare c f.ctx f.world f.list).2.1,
    world := (env.prepare c f.ctx f.world f.list).2.2.1,
    list := (env.prepare c f.ctx f.world f.list).2.2.2 }

/-- The selector's priority chain in the spec's words (section 4.1 step 6, section 9):
the strategies of an ordered list are asked one after the other, each on what the
one before left, until one claims the frame.  The result is the answers given, in
order, and the frame after the last one asked. -/
def firstClaim {W : Type} (env : Collaborators W) :
    List Component → Frame W → List (Component × Bool) × Frame W
  | [], f => ([], f)
  | c :: cs, f =>
    if answer env c f = true then ([(c, true)], asked env c f)
    else ((c, false) :: (firstClaim env cs (asked env c f)).1,
          (firstClaim env cs (asked env c f)).2)

/-- Some strategy claimed the frame. -/
def claimed (answers : List (Component × Bool)) : Bool :=
  answers.any (fun x => x.2)

/-- The calls of the chain for given answers: one applicability question per
answer, and the overlay closed when nobody claimed (section 4.1 step 7). -/
def chainCalls (answers : List (Component × Bool)) : List Call :=
  answers.map (fun x => Call.prepare x.1 x.2) ++
    (if claimed answers = true then [] else [Call.setState eOverlayState.OV_CLOSED])

/-- The context after the chain: overlayInUse says whether somebody claimed, and
the overlay state is Closed when nobody did (section 4.1 steps 6 and 7). -/
def chainCtx (answers : List (Component × Bool)) (ctx : hwc_context_t) : hwc_context_t :=
  if claimed answers = true then { ctx with overlayInUse := true }
  else { ctx with overlayInUse := false, mOverlay := eOverlayState.OV_CLOSED }

/-- The calls made before the strategies are looked at, and what they leave. -/
structure ExternalOutcome (W : Type) where
  calls : List Call
  ctx : hwc_context_t
  world : W

/-- The external display part of the selector (section 4.1 step 2): the overlay
utilities are told the external display type when there is one, and a pending
attach is completed when the hardware version or the overlay state allows it. -/
def specExternal {W : Type} (env : Collaborators W) (ctx : hwc_context_t) (w : W) :
    ExternalOutcome W :=
  let t := env.getExternalDisplay w
  let w1 := if t = 0 then w else env.setExtType t w
  let c1 := if t = 0 then [] else [Call.setExtType t]
  if ctx.hdmi_pending = true ∧
      (env.MDP_V4_2 ≤ env.getMDPVersion w1 ∨ ctx.mOverlay ≠ eOverlayState.OV_BYPASS_3_LAYER) then
    { calls := c1 ++ [Call.processUEventOnline],
      ctx := { ctx with hdmi_pending := false },
      world := env.processUEventOnline ctx.mHDMIEvent w1 }
  else { calls := c1, ctx := ctx, world := w1 }

/-- What one prepare leaves for a single display: the answers of the strategies
asked, all calls made, and the context, world and list afterwards. -/
structure PrepareOutcome (W : Type) where
  answers : List (Component × Bool)
  calls : List Call
  ctx : hwc_context_t
  world : W
  list : hwc_display_contents_1_t

/-- The frame the priority chain starts from for one present list (section 4.1
steps 3 to 5): the per-frame strategy state reset, the layer statistics gathered,
every layer marked for GPU-copy. -/
def chainStart {W : Type} (env : Collaborators W) (ctx : hwc_context_t) (w : W)
    (l : hwc_display_contents_1_t) : Frame W :=
  let w3 := env.reset Component.ExtOnly
    (env.reset Component.VideoPIP (env.reset Component.VideoOverlay w))
  let st := env.getLayerStats ctx w3 l
  let cb := env.prepare Component.CopyBit st.1 st.2.1 st.2.2
  { ctx := cb.2.1, world := cb.2.2.1, list := cb.2.2.2 }

/-- The selector of the spec for one present list (section 4.1 steps 3 to 7 and
the secondary pass), as a function of the collaborators alone: reset of the
per-frame strategy state, layer statistics, every layer marked for GPU-copy, the
priority chain, the GPU-layer pass. -/
def specList {W : Type} (env : Collaborators W) (ctx : hwc_context_t) (w : W)
    (l : hwc_display_contents_1_t) : PrepareOutcome W :=
  let w3 := env.reset Component.ExtOnly
    (env.reset Component.VideoPIP (env.reset Component.VideoOverlay w))
  let st := env.getLayerStats ctx w3 l
  let cb := env.prepare Component.CopyBit st.1 st.2.1 st.2.2
  let ch := firstClaim env strategyOrder { ctx := cb.2.1, world := cb.2.2.1, list := cb.2.2.2 }
  let gpu := env.checkforGPULayer ch.2.world ch.2.list
  { answers := ch.1,
    calls := listPrologue cb.1 ++ chainCalls ch.1 ++ [Call.checkforGPULayer],
    ctx := chainCtx ch.1 ch.2.ctx,
    world := gpu.1,
    list := gpu.2 }

/-- The context the strategies of display 0 start from: overlayInUse cleared, the
external display part done, the display handle of the list noted. -/
def specStart {W : Type} (env : Collaborators W) (ctx : hwc_context_t) (w : W)
    (l : hwc_display_contents_1_t) : hwc_context_t :=
  { (specExternal env { ctx with overlayInUse := false } w).ctx with
    dpys := Function.update
      (specExternal env { ctx with overlayInUse := false } w).ctx.dpys 0 l.dpy }

/-- The frame the priority chain of a prepare call starts from, for a single
display with a present list. -/
def prepareChainStart {W : Type} (env : Collaborators W) (ctx : hwc_context_t) (w : W)
    (l : hwc_display_contents_1_t) : Frame W :=
  chainStart env (specStart env ctx w l)
    (specExternal env { ctx with overlayInUse := false } w).world l

/-- The selector of the spec (section 4.1) for a single display with a present
list and no secure session, as a function of the collaborators alone: the
external display part, then the selection for the list. -/
def specPrepare {W : Type} (env : Collaborators W) (ctx : hwc_context_t) (w : W)
    (l : hwc_display_contents_1_t) : PrepareOutcome W :=
  let x := specExternal env { ctx with overlayInUse := false } w
  let r := specList env (specStart env ctx w l) x.world l
  { answers := r.answers, calls := x.calls ++ r.calls, ctx := r.ctx, world := r.world,
    list := r.list }

/-- The draw steps of the commit engine in the spec's fixed order: video overlay,
PIP, external-only, GPU-copy composition, hardware composition. -/
def drawOrder : List Component :=
  [Component.VideoOverlay, Component.VideoPIP, Component.ExtOnly,
   Component.CopyBit, Component.MDPComp]

/-- The draw step of every strategy component, run in `drawOrder`, each on what the
one before left. -/
def specDraws {W : Type} (env : Collaborators W) (f : Frame W) : Frame W :=
  drawOrder.foldl
    (fun g c => { ctx := (env.draw c g.ctx g.world g.list).1,
                  world := (env.draw c g.ctx g.world g.list).2.1,
                  list := (env.draw c g.ctx g.world g.list).2.2 }) f

/-- The calls made for one display and what they leave. -/
structure DisplayOutcome (W : Type) where
  calls : List Call
  ctx : hwc_context_t
  world : W
  list : hwc_display_contents_1_t

/-- The spec's sequence for one display with a valid presentation target (section 4.2,
steps 1 to 3), as a function of the collaborators alone: the draws, the swap on the
target the list names after the draws, and, if the context then says the backend
has overlay, the post wait, the mirror draw, the external commit if the external
display collaborator then reports an attached display, and the pan wait. -/
def specDisplay {W : Type} (env : Collaborators W) (ctx : hwc_context_t) (w : W)
    (l : hwc_display_contents_1_t) : DisplayOutcome W :=
  let a := specDraws env { ctx := ctx, world := w, list := l }
  let w1 := env.eglSwapBuffers a.list.dpy a.list.sur a.world
  if a.ctx.hasOverlay = true then
    let b := env.wait4fbPost a.ctx w1
    let c := env.drawUIMirror b.2.1 b.2.2
    let ext := decide (env.getExternalDisplay c.2 ≠ 0)
    let w2 := if ext = true then env.commit c.2 else c.2
    let d := env.wait4Pan c.1 w2
    { calls := displayBlock a.list.dpy a.list.sur true ext,
      ctx := d.2.1, world := d.2.2, list := a.list }
  else
    { calls := displayBlock a.list.dpy a.list.sur false false,
      ctx := a.ctx, world := w1, list := a.list }

/-- The blocks of calls of a whole set cycle, one per display, and what they leave. -/
structure SetOutcome (W : Type) where
  blocks : List (List Call)
  ctx : hwc_context_t
  world : W
  lists : List hwc_display_contents_1_t

/-- The spec's set cycle before the final release: the displays are processed in
index order, each one starting from what the one before left. -/
def specSet {W : Type} (env : Collaborators W) :
    hwc_context_t → W → List hwc_display_contents_1_t → SetOutcome W
  | ctx, w, [] => { blocks := [], ctx := ctx, world := w, lists := [] }
  | ctx, w, l :: ls =>
    let r := specDisplay env ctx w l
    let rest := specSet env r.ctx r.world ls
    { blocks := r.calls :: rest.blocks, ctx := rest.ctx, world := rest.world,
      lists := r.list :: rest.lists }

/-- A call that releases buffers of the tracker. -/
def Call.isRelease (c : Call) : Bool :=
  match c with
  | Call.unlockAll => true
  | Call.unlockAllPrevious => true
  | _ => false

/-- Collaborators over a one-point world that leave the context and the lists
alone: `claims` are the applicability answers, `ext` the external display type,
`hdmi` whether HDMI is configured, `rc`/`err` the result and errno of the vsync
ioctl, `hdmiRet` the status of the external vsync call, `wait` the outcome of both
waits.  The constants are those of the Android and MSM headers. -/
def testEnv (claims : Component → Bool) (ext : Int) (hdmi : Bool) (rc err hdmiRet : Int)
    (wait : WaitResult) : Collaborators Unit where
  HWC_EVENT_VSYNC := 0
  EINVAL := 22
  EXTERN_DISPLAY_FB1 := 1
  MDP_V4_2 := 420
  NO_HW_VSYNC := false
  getExternalDisplay := fun _ => ext
  isHDMIConfigured := fun _ => hdmi
  setExtType := fun _ w => w
  getMDPVersion := fun _ => 400
  processUEventOnline := fun _ w => w
  reset := fun _ w => w
  getLayerStats := fun c w l => (c, w, l)
  prepare := fun k c w l => (claims k, c, w, l)
  checkforGPULayer := fun w l => (w, l)
  draw := fun _ c w l => (c, w, l)
  drawUIMirror := fun c w => (c, w)
  eglSwapBuffers := fun _ _ w => w
  wait4fbPost := fun c w => (wait, c, w)
  wait4Pan := fun c w => (wait, c, w)
  commit := fun w => w
  ioctl_vsync_ctrl := fun _ w => (rc, err, w)
  enableHDMIVsync := fun _ w => (hdmiRet, w)

/-- Collaborators with no external display, no strategy that applies, a working
vsync ioctl and waits that complete. -/
def quietEnv : Collaborators Unit :=
  testEnv (fun _ => false) 0 false 0 0 0 WaitResult.completed

/-- Collaborators whose world is the log of the collaborator calls really made:
every collaborator appends its own call to the world it is given and leaves the
context and the list alone.  `claims` are the applicability answers, `ext` the
external display type. -/
def logEnv (claims : Component → Bool) (ext : Int) : Collaborators (List Call) where
  HWC_EVENT_VSYNC := 0
  EINVAL := 22
  EXTERN_DISPLAY_FB1 := 1
  MDP_V4_2 := 420
  NO_HW_VSYNC := false
  getExternalDisplay := fun _ => ext
  isHDMIConfigured := fun _ => false
  setExtType := fun t w => w ++ [Call.setExtType t]
  getMDPVersion := fun _ => 400
  processUEventOnline := fun _ w => w ++ [Call.processUEventOnline]
  reset := fun k w => w ++ [Call.reset k]
  getLayerStats := fun c w l => (c, w ++ [Call.getLayerStats], l)
  prepare := fun k c w l => (claims k, c, w ++ [Call.prepare k (claims k)], l)
  checkforGPULayer := fun w l => (w ++ [Call.checkforGPULayer], l)
  draw := fun k c w l => (c, w ++ [Call.draw k], l)
  drawUIMirror := fun c w => (c, w ++ [Call.draw Component.UIMirrorOverlay])
  eglSwapBuffers := fun d r w => w ++ [Call.eglSwapBuffers d r]
  wait4fbPost := fun c w => (WaitResult.completed, c, w ++ [Call.wait4fbPost])
  wait4Pan := fun c w => (WaitResult.completed, c, w ++ [Call.wait4Pan])
  commit := fun w => w ++ [Call.commit]
  ioctl_vsync_ctrl := fun e w => (0, 0, w ++ [Call.ioctl_vsync_ctrl e])
  enableHDMIVsync := fun e w => (0, w ++ [Call.enableHDMIVsync e])

/-- Logging collaborators among which picture-in-picture is the only strategy that
applies; no external display. -/
def pipEnv : Collaborators (List Call) :=
  logEnv (fun c => decide (c = Component.VideoPIP)) 0

/-- Logging collaborators with an external display attached and no strategy that
applies. -/
def attachedEnv : Collaborators (List Call) :=
  logEnv (fun _ => false) 1

/-- Collaborators for which the primary vsync ioctl fails with errno 22 while an
external display is configured as FB1 and its own vsync call succeeds. -/
def hdmiEnv : Collaborators Unit :=
  testEnv (fun _ => false) 1 true (-1) 22 0 WaitResult.completed

/-- Collaborators whose post-completion and pan-completion waits both time out. -/
def timeoutEnv : Collaborators Unit :=
  testEnv (fun _ => false) 0 false 0 0 0 WaitResult.timedOut

/-- A context with an overlay backend, vsync disabled, the given overlay state and
the given locked buffers. -/
def testCtx (inUse secure : Bool) (st : eOverlayState) (cur prev : List Nat) : hwc_context_t where
  overlayInUse := inUse
  mSecureConfig := secure
  hdmi_pending := false
  mHDMIEvent := ""
  dpys := fun _ => 0
  vstate_enable := false
  hasOverlay := true
  mOverlay := st
  qbuf := { current := cur, previous := prev }

/-- A state with an empty trace around `testCtx`. -/
def testState (inUse secure : Bool) (st : eOverlayState) (cur prev : List Nat) : HwcState Unit where
  ctx := testCtx inUse secure st cur prev
  world := ()
  prev_value := 0
  temp := 0
  trace := []

/-- A state in mid-playback: overlay in use, one buffer locked for the current
frame and one held from the previous frame. -/
def busyState : HwcState Unit :=
  testState true false (eOverlayState.OV_OTHER 1) [7] [6]

/-- The state in mid-playback over an empty log of collaborator calls. -/
def logState : HwcState (List Call) where
  ctx := testCtx true false (eOverlayState.OV_OTHER 1) [7] [6]
  world := []
  prev_value := 0
  temp := 0
  trace := []

/-- The same state with the secure-session flag set. -/
def secureState : HwcState Unit :=
  testState true true (eOverlayState.OV_OTHER 1) [7] [6]

/-- A present layer list with no layers and a valid presentation target. -/
def emptyList : hwc_display_contents_1_t :=
  { dpy := 1, sur := 1, flags := 0, hwLayers := [] }

/-- One layer. -/
def oneLayer : hwc_layer_1_t :=
  { compositionType := 0, hints := 0, flags := 0, handle := 9 }

/-- A one-layer list with a valid presentation target. -/
def validList : hwc_display_contents_1_t :=
  { dpy := 1, sur := 1, flags := 0, hwLayers := [oneLayer] }

/-- A one-layer list with another valid presentation target. -/
def secondList : hwc_display_contents_1_t :=
  { dpy := 2, sur := 3, flags := 0, hwLayers := [oneLayer] }

/-- A one-layer list whose surface is missing. -/
def noSurfaceList : hwc_display_contents_1_t :=
  { dpy := 1, sur := 0, flags := 0, hwLayers := [oneLayer] }

end Specification

/-! ## Theorems -/

section BlankTheorems

variable {W : Type}

/-- C6: hwc_blank returns 0 for every state and display index; with a non-zero
blank argument the resulting state has overlay state Closed, overlayInUse false
and no locked buffer, whatever the prior state; with a zero blank argument the
state, its trace of collaborator calls included, is unchanged. -/
theorem hwc_blank_spec (s : HwcState W) (dpy blank : Int) :
    (hwc_blank s dpy blank).1 = 0 ∧
    (blank ≠ 0 →
      (hwc_blank s dpy blank).2.ctx.mOverlay = eOverlayState.OV_CLOSED ∧
      (hwc_blank s dpy blank).2.ctx.overlayInUse = false ∧
      (hwc_blank s dpy blank).2.ctx.qbuf.current = [] ∧
      (hwc_blank s dpy blank).2.ctx.qbuf.previous = []) ∧
    (blank = 0 → (hwc_blank s dpy blank).2 = s) := by
  refine ⟨?_, ?_, ?_⟩
  · unfold hwc_blank
    split <;> rfl
  · intro hb
    simp [hwc_blank, hb, unlockAll, setState, setOverlayInUse, QueuedBufferStore.unlockAll]
  · intro hb
    simp [hwc_blank, hb]

/-- Witness for C6 on a state in mid-playback: blanking display 0 tears it down,
unblanking leaves it as it was. -/
theorem hwc_blank_spec_witness :
    ((hwc_blank busyState 0 1).2.ctx.mOverlay = eOverlayState.OV_CLOSED ∧
      (hwc_blank busyState 0 1).2.ctx.overlayInUse = false ∧
      (hwc_blank busyState 0 1).2.ctx.qbuf.current = [] ∧
      (hwc_blank busyState 0 1).2.ctx.qbuf.previous = []) ∧
    (hwc_blank busyState 0 0).2 = busyState :=
  ⟨(hwc_blank_spec busyState 0 1).2.1 (by decide), (hwc_blank_spec busyState 0 0).2.2 rfl⟩

end BlankTheorems

section EventControlTheorems

variable {W : Type}

/-- The redundant-call check of lines 159-163 changes nothing: `VSYNC_DEBUG` is 0. -/
theorem alogd_off (s : HwcState W) : ALOGD_IF VSYNC_DEBUG s = s := by
  simp [ALOGD_IF, VSYNC_DEBUG]

/-- The vsync ioctl step leaves the context and the function statics alone. -/
theorem vsync_ioctl_fields (env : Collaborators W) (s : HwcState W) (enabled ret : Int) :
    (vsync_ioctl env s enabled ret).2.ctx = s.ctx ∧
    (vsync_ioctl env s enabled ret).2.temp = s.temp ∧
    (vsync_ioctl env s enabled ret).2.prev_value = s.prev_value := by
  unfold vsync_ioctl
  split <;> simp

/-- The calls the vsync ioctl step makes: one ioctl, unless the build fakes vsync. -/
theorem vsync_ioctl_trace (env : Collaborators W) (s : HwcState W) (enabled ret : Int) :
    (vsync_ioctl env s enabled ret).2.trace =
      s.trace ++ (if env.NO_HW_VSYNC = true then [] else [Call.ioctl_vsync_ctrl enabled]) := by
  unfold vsync_ioctl
  split <;> simp [*]

/-- What the state change block does to the flag, the statics and the trace. -/
theorem vsync_state_change_fields (s : HwcState W) (enabled : Int) :
    (vsync_state_change s enabled).ctx.vstate_enable =
      (if enabled = 1 then true
       else if enabled = 0 ∧ s.temp ≠ 0 then false else s.ctx.vstate_enable) ∧
    (vsync_state_change s enabled).prev_value = enabled ∧
    (vsync_state_change s enabled).temp = s.temp ∧
    (vsync_state_change s enabled).world = s.world ∧
    (vsync_state_change s enabled).trace = s.trace ++ stateChangeCalls enabled s.temp := by
  unfold vsync_state_change stateChangeCalls
  simp only [alogd_off]
  by_cases h1 : enabled = 1
  · subst h1
    simp [vsync_unblock]
  · by_cases h0 : enabled = 0 ∧ s.temp ≠ 0
    · simp [h1, h0, vsync_block]
    · simp [h1, h0]

/-- The external display branch leaves the context and the function statics alone. -/
theorem vsync_external_fields (env : Collaborators W) (s : HwcState W) (enabled ret : Int) :
    (vsync_external env s enabled ret).2.ctx = s.ctx ∧
    (vsync_external env s enabled ret).2.prev_value = s.prev_value ∧
    (vsync_external env s enabled ret).2.temp = s.temp ∧
    (vsync_external env s enabled ret).2.trace =
      s.trace ++ (if env.isHDMIConfigured s.world = true ∧
        env.getExternalDisplay s.world = env.EXTERN_DISPLAY_FB1
        then [Call.enableHDMIVsync enabled] else []) := by
  unfold vsync_external
  split <;> simp [*]

/-- The vsync flag, the remembered value and the trace after a VSYNC event. -/
theorem hwc_eventControl_vsync_fields (env : Collaborators W) (s : HwcState W)
    (dpy enabled : Int) :
    (hwc_eventControl env s dpy env.HWC_EVENT_VSYNC enabled).2.ctx.vstate_enable =
      (if enabled = 1 then true else if enabled = 0 then false else s.ctx.vstate_enable) ∧
    (hwc_eventControl env s dpy env.HWC_EVENT_VSYNC enabled).2.prev_value = enabled ∧
    ∃ post, (hwc_eventControl env s dpy env.HWC_EVENT_VSYNC enabled).2.trace =
      s.trace ++ (if env.NO_HW_VSYNC = true then [] else [Call.ioctl_vsync_ctrl enabled]) ++
        stateChangeCalls enabled (if s.ctx.vstate_enable = true then 1 else 0) ++ post ∧
      ∀ c ∈ post, c = Call.enableHDMIVsync enabled := by
  simp only [hwc_eventControl, if_true, alogd_off, ite_self]
  refine ⟨?_, ?_, ?_⟩
  · rw [(vsync_external_fields env _ enabled _).1, (vsync_state_change_fields _ enabled).1,
      (vsync_ioctl_fields env _ enabled _).1, (vsync_ioctl_fields env _ enabled _).2.1]
    by_cases h1 : enabled = 1
    · simp [h1]
    · by_cases h0 : enabled = 0
      · cases hv : s.ctx.vstate_enable <;> simp [h0, hv]
      · simp [h1, h0]
  · rw [(vsync_external_fields env _ enabled _).2.1, (vsync_state_change_fields _ enabled).2.1]
  · refine ⟨?w, ?h1, ?h2⟩
    case h1 =>
      rw [(vsync_external_fields env _ enabled _).2.2.2,
        (vsync_state_change_fields _ enabled).2.2.2.2, vsync_ioctl_trace,
        (vsync_ioctl_fields env _ enabled _).2.1]
      exact rfl
    case h2 =>
      intro c hc
      split at hc <;> simp_all

/-- C7: whatever the prior vsync state and whatever the hardware programming
returns, after eventControl(VSYNC, 1) the vsync enabled flag is true and the call
has signalled the wait condition, and after eventControl(VSYNC, 0) the flag is
false. -/
theorem hwc_eventControl_vsync_flag (env : Collaborators W) (s : HwcState W) (dpy : Int) :
    (hwc_eventControl env s dpy env.HWC_EVENT_VSYNC 1).2.ctx.vstate_enable = true ∧
    (∃ t, (hwc_eventControl env s dpy env.HWC_EVENT_VSYNC 1).2.trace = s.trace ++ t ∧
      Call.cond_signal ∈ t) ∧
    (hwc_eventControl env s dpy env.HWC_EVENT_VSYNC 0).2.ctx.vstate_enable = false := by
  refine ⟨?_, ?_, ?_⟩
  · rw [(hwc_eventControl_vsync_fields env s dpy 1).1]
    simp
  · obtain ⟨post, ht, _⟩ := (hwc_eventControl_vsync_fields env s dpy 1).2.2
    refine ⟨?w, ?h1, ?h2⟩
    case h1 =>
      rw [ht, List.append_assoc, List.append_assoc]
      exact rfl
    case h2 => simp [stateChangeCalls]
  · rw [(hwc_eventControl_vsync_fields env s dpy 0).1]
    simp

/-- C9 (the code at the failing input): the primary vsync ioctl fails with errno
22, an external display is configured as FB1 and its vsync call returns 0; the
status hwc_eventControl returns is 0, not -22. -/
theorem hwc_eventControl_primary_error_lost :
    (hdmiEnv.ioctl_vsync_ctrl 1 ()).1 < 0 ∧
    (hdmiEnv.ioctl_vsync_ctrl 1 ()).2.1 = 22 ∧
    (hwc_eventControl hdmiEnv busyState 0 hdmiEnv.HWC_EVENT_VSYNC 1).1 = 0 := by
  refine ⟨?_, ?_, ?_⟩ <;> decide

/-- Without an external display configured as FB1 the status of a failed primary
vsync ioctl does reach the caller: errno `e` is returned as `-e`. -/
theorem hwc_eventControl_primary_error_without_external (env : Collaborators W)
    (s : HwcState W) (dpy enabled : Int)
    (hbuild : env.NO_HW_VSYNC = false)
    (hfail : (env.ioctl_vsync_ctrl enabled s.world).1 < 0)
    (hext : ¬ (env.isHDMIConfigured (env.ioctl_vsync_ctrl enabled s.world).2.2 = true ∧
      env.getExternalDisplay (env.ioctl_vsync_ctrl enabled s.world).2.2 =
        env.EXTERN_DISPLAY_FB1)) :
    (hwc_eventControl env s dpy env.HWC_EVENT_VSYNC enabled).1 =
      -(env.ioctl_vsync_ctrl enabled s.world).2.1 := by
  simp only [hwc_eventControl, if_true, alogd_off, ite_self]
  have hw : (vsync_state_change (vsync_ioctl env
      { s with temp := if s.ctx.vstate_enable = true then 1 else 0 } enabled 0).2 enabled).world =
      (env.ioctl_vsync_ctrl enabled s.world).2.2 := by
    rw [(vsync_state_change_fields _ enabled).2.2.2.1]
    simp [vsync_ioctl, hbuild]
  unfold vsync_external
  rw [hw, if_neg hext]
  simp [vsync_ioctl, hbuild, hfail]

end EventControlTheorems

section PrepareTheorems

variable {W : Type}

/-- A strategy's `prepare` appends its own answer to the trace. -/
theorem callPrepare_trace (env : Collaborators W) (c : Component)
    (p : HwcState W × hwc_display_contents_1_t) :
    (callPrepare env c p).2.1.trace = p.1.trace ++ [Call.prepare c (callPrepare env c p).1] :=
  rfl

/-- The chain either stops at the first strategy that applies, with overlayInUse
set, or asks all five, clears overlayInUse and closes the overlay. -/
theorem prepare_chain_cases (env : Collaborators W)
    (p : HwcState W × hwc_display_contents_1_t) :
    (∃ k c, strategyOrder[k]? = some c ∧
      (prepare_chain env p).1.trace = p.1.trace ++ chainClaimed k c ∧
      (prepare_chain env p).1.ctx.overlayInUse = true) ∨
    ((prepare_chain env p).1.trace = p.1.trace ++ chainRefused ∧
      (prepare_chain env p).1.ctx.overlayInUse = false ∧
      (prepare_chain env p).1.ctx.mOverlay = eOverlayState.OV_CLOSED) := by
  unfold prepare_chain
  by_cases h1 : (callPrepare env Component.VideoOverlay p).1 = true
  · refine Or.inl ⟨0, Component.VideoOverlay, rfl, ?_, ?_⟩
    · simp [h1, setOverlayInUse, callPrepare_trace, chainClaimed, strategyOrder]
    · simp [h1, setOverlayInUse]
  by_cases h2 : (callPrepare env Component.VideoPIP
      (callPrepare env Component.VideoOverlay p).2).1 = true
  · refine Or.inl ⟨1, Component.VideoPIP, rfl, ?_, ?_⟩
    · simp [h1, h2, setOverlayInUse, callPrepare_trace, chainClaimed, strategyOrder]
    · simp [h1, h2, setOverlayInUse]
  by_cases h3 : (callPrepare env Component.ExtOnly
      (callPrepare env Component.VideoPIP
        (callPrepare env Component.VideoOverlay p).2).2).1 = true
  · refine Or.inl ⟨2, Component.ExtOnly, rfl, ?_, ?_⟩
    · simp [h1, h2, h3, setOverlayInUse, callPrepare_trace, chainClaimed, strategyOrder]
    · simp [h1, h2, h3, setOverlayInUse]
  by_cases h4 : (callPrepare env Component.UIMirrorOverlay
      (callPrepare env Component.ExtOnly
        (callPrepare env Component.VideoPIP
          (callPrepare env Component.VideoOverlay p).2).2).2).1 = true
  · refine Or.inl ⟨3, Component.UIMirrorOverlay, rfl, ?_, ?_⟩
    · simp [h1, h2, h3, h4, setOverlayInUse, callPrepare_trace, chainClaimed, strategyOrder]
    · simp [h1, h2, h3, h4, setOverlayInUse]
  by_cases h5 : (callPrepare env Component.MDPComp
      (callPrepare env Component.UIMirrorOverlay
        (callPrepare env Component.ExtOnly
          (callPrepare env Component.VideoPIP
            (callPrepare env Component.VideoOverlay p).2).2).2).2).1 = true
  · refine Or.inl ⟨4, Component.MDPComp, rfl, ?_, ?_⟩
    · simp [h1, h2, h3, h4, h5, setOverlayInUse, callPrepare_trace, chainClaimed, strategyOrder]
    · simp [h1, h2, h3, h4, h5, setOverlayInUse]
  · refine Or.inr ⟨?_, ?_, ?_⟩
    · simp [h1, h2, h3, h4, h5, setOverlayInUse, setState, callPrepare_trace, chainRefused,
        strategyOrder]
    · simp [h1, h2, h3, h4, h5, setOverlayInUse, setState]
    · simp [h1, h2, h3, h4, h5, setOverlayInUse, setState]

/-- The chain of hwc_prepare is the spec's priority chain: the same answers of the
same collaborators in the same order, the same frame afterwards. -/
theorem prepare_chain_spec (env : Collaborators W)
    (p : HwcState W × hwc_display_contents_1_t) :
    prepare_chain env p =
      ({ p.1 with
          ctx := chainCtx (firstClaim env strategyOrder
              { ctx := p.1.ctx, world := p.1.world, list := p.2 }).1
            (firstClaim env strategyOrder
              { ctx := p.1.ctx, world := p.1.world, list := p.2 }).2.ctx,
          world := (firstClaim env strategyOrder
              { ctx := p.1.ctx, world := p.1.world, list := p.2 }).2.world,
          trace := p.1.trace ++ chainCalls (firstClaim env strategyOrder
              { ctx := p.1.ctx, world := p.1.world, list := p.2 }).1 },
       (firstClaim env strategyOrder
          { ctx := p.1.ctx, world := p.1.world, list := p.2 }).2.list) := by
  unfold prepare_chain
  by_cases h1 : (callPrepare env Component.VideoOverlay p).1 = true
  · simp only [callPrepare] at h1
    simp [h1, firstClaim, strategyOrder, answer, asked, callPrepare, chainCalls, chainCtx,
      claimed, setOverlayInUse]
  by_cases h2 : (callPrepare env Component.VideoPIP
      (callPrepare env Component.VideoOverlay p).2).1 = true
  · simp only [callPrepare] at h1 h2
    simp [h1, h2, firstClaim, strategyOrder, answer, asked, callPrepare, chainCalls, chainCtx,
      claimed, setOverlayInUse]
  by_cases h3 : (callPrepare env Component.ExtOnly
      (callPrepare env Component.VideoPIP
        (callPrepare env Component.VideoOverlay p).2).2).1 = true
  · simp only [callPrepare] at h1 h2 h3
    simp [h1, h2, h3, firstClaim, strategyOrder, answer, asked, callPrepare, chainCalls,
      chainCtx, claimed, setOverlayInUse]
  by_cases h4 : (callPrepare env Component.UIMirrorOverlay
      (callPrepare env Component.ExtOnly
        (callPrepare env Component.VideoPIP
          (callPrepare env Component.VideoOverlay p).2).2).2).1 = true
  · simp only [callPrepare] at h1 h2 h3 h4
    simp [h1, h2, h3, h4, firstClaim, strategyOrder, answer, asked, callPrepare, chainCalls,
      chainCtx, claimed, setOverlayInUse]
  by_cases h5 : (callPrepare env Component.MDPComp
      (callPrepare env Component.UIMirrorOverlay
        (callPrepare env Component.ExtOnly
          (callPrepare env Component.VideoPIP
            (callPrepare env Component.VideoOverlay p).2).2).2).2).1 = true
  · simp only [callPrepare] at h1 h2 h3 h4 h5
    simp [h1, h2, h3, h4, h5, firstClaim, strategyOrder, answer, asked, callPrepare,
      chainCalls, chainCtx, claimed, setOverlayInUse]
  · simp only [callPrepare] at h1 h2 h3 h4 h5
    simp [h1, h2, h3, h4, h5, firstClaim, strategyOrder, answer, asked, callPrepare,
      chainCalls, chainCtx, claimed, setOverlayInUse, setState]

/-- The branch for a non-null list: the prologue, the chain, then
`checkforGPULayer`; the context is the one the chain left. -/
theorem prepare_list_trace (env : Collaborators W) (s : HwcState W)
    (l : hwc_display_contents_1_t) :
    ∃ b t, (prepare_list env s l).1.trace =
        s.trace ++ listPrologue b ++ t ++ [Call.checkforGPULayer] ∧
      ChainResult t (prepare_list env s l).1.ctx := by
  have hc := prepare_chain_cases env (callPrepare env Component.CopyBit
    (callGetLayerStats env (callReset env Component.ExtOnly
      (callReset env Component.VideoPIP (callReset env Component.VideoOverlay s)), l))).2
  have hp : (callPrepare env Component.CopyBit
      (callGetLayerStats env (callReset env Component.ExtOnly
        (callReset env Component.VideoPIP
          (callReset env Component.VideoOverlay s)), l))).2.1.trace =
      s.trace ++ listPrologue (callPrepare env Component.CopyBit
        (callGetLayerStats env (callReset env Component.ExtOnly
          (callReset env Component.VideoPIP
            (callReset env Component.VideoOverlay s)), l))).1 := by
    simp [callPrepare_trace, callGetLayerStats, callReset, listPrologue]
  rcases hc with ⟨k, c, hk, ht, ho⟩ | ⟨ht, ho, hm⟩
  · refine ⟨?b, chainClaimed k c, ?h1, Or.inl ⟨k, c, hk, rfl, ho⟩⟩
    case h1 =>
      show (prepare_chain env _).1.trace ++ [Call.checkforGPULayer] = _
      rw [ht, hp]
      all_goals exact rfl
  · refine ⟨?b, chainRefused, ?h1, Or.inr ⟨rfl, ho, hm⟩⟩
    case h1 =>
      show (prepare_chain env _).1.trace ++ [Call.checkforGPULayer] = _
      rw [ht, hp]

/-- The statements before the loop only talk to the external display, and they
leave the secure-session flag alone. -/
theorem prepare_external_trace (env : Collaborators W) (s : HwcState W) :
    ∃ e, (prepare_external env s).trace = s.trace ++ e ∧
      ∀ c ∈ e, c.isExternalSetup = true := by
  have h1 : ∃ e, (prepare_setExtType env s).trace = s.trace ++ e ∧
      ∀ c ∈ e, c.isExternalSetup = true := by
    unfold prepare_setExtType
    split
    · exact ⟨[_], rfl, by simp [Call.isExternalSetup]⟩
    · exact ⟨[], by simp, by simp⟩
  have h2 : ∀ s1 : HwcState W, ∃ e, (prepare_hdmi_pending env s1).trace = s1.trace ++ e ∧
      ∀ c ∈ e, c.isExternalSetup = true := by
    intro s1
    unfold prepare_hdmi_pending
    split
    · split
      · exact ⟨[_], rfl, by simp [Call.isExternalSetup]⟩
      · exact ⟨[], by simp, by simp⟩
    · exact ⟨[], by simp, by simp⟩
  obtain ⟨e1, ht1, ha1⟩ := h1
  obtain ⟨e2, ht2, ha2⟩ := h2 (prepare_setExtType env s)
  refine ⟨e1 ++ e2, ?_, ?_⟩
  · unfold prepare_external
    rw [ht2, ht1, List.append_assoc]
  · intro c hc
    rcases List.mem_append.mp hc with h | h
    · exact ha1 c h
    · exact ha2 c h

/-- A call without a secure session, for one display with a present list:
prepare returns 0 and its calls are the external setup, the prologue, the chain
and `checkforGPULayer`. -/
theorem hwc_prepare_single (env : Collaborators W) (s : HwcState W)
    (l : hwc_display_contents_1_t) (hsec : s.ctx.mSecureConfig = false) :
    ∃ s' l' e b t, hwc_prepare env s [some l] = some (0, s', [some l']) ∧
      s'.trace = s.trace ++ e ++ listPrologue b ++ t ++ [Call.checkforGPULayer] ∧
      (∀ c ∈ e, c.isExternalSetup = true) ∧ ChainResult t s'.ctx := by
  obtain ⟨e, he, hall⟩ := prepare_external_trace env (setOverlayInUse s false)
  obtain ⟨b, t, ht, hr⟩ := prepare_list_trace env
    (setDpy (prepare_external env (setOverlayInUse s false)) 0 l.dpy) l
  refine ⟨(prepare_list env (setDpy (prepare_external env (setOverlayInUse s false)) 0 l.dpy) l).1,
    (prepare_list env (setDpy (prepare_external env (setOverlayInUse s false)) 0 l.dpy) l).2,
    e, b, t, ?_, ?_, hall, hr⟩
  · have hs : (setOverlayInUse s false).ctx.mSecureConfig = false := hsec
    simp [hwc_prepare, hs, hwc_prepare_loop, hwc_prepare_display]
  · rw [ht]
    show (prepare_external env (setOverlayInUse s false)).trace ++ _ ++ _ ++ _ = _
    rw [he]
    rfl

/-- The statements before the loop are the external display part of the spec. -/
theorem prepare_external_spec (env : Collaborators W) (s : HwcState W) :
    prepare_external env s =
      { s with ctx := (specExternal env s.ctx s.world).ctx,
               world := (specExternal env s.ctx s.world).world,
               trace := s.trace ++ (specExternal env s.ctx s.world).calls } := by
  cases s with
  | mk ctx world pv tmp trace =>
    by_cases ht : env.getExternalDisplay world = 0
    · by_cases hc : ctx.hdmi_pending = true ∧
          (env.MDP_V4_2 ≤ env.getMDPVersion world ∨
            ctx.mOverlay ≠ eOverlayState.OV_BYPASS_3_LAYER)
      · simp [prepare_external, prepare_hdmi_pending, prepare_setExtType, specExternal, ht, hc]
      · simp [prepare_external, prepare_hdmi_pending, prepare_setExtType, specExternal, ht, hc]
        intro hp
        simpa [hp, not_or, not_le] using hc
    · by_cases hc : ctx.hdmi_pending = true ∧
          (env.MDP_V4_2 ≤ env.getMDPVersion
              (env.setExtType (env.getExternalDisplay world) world) ∨
            ctx.mOverlay ≠ eOverlayState.OV_BYPASS_3_LAYER)
      · simp [prepare_external, prepare_hdmi_pending, prepare_setExtType, specExternal, ht, hc]
      · simp [prepare_external, prepare_hdmi_pending, prepare_setExtType, specExternal, ht, hc]
        intro hp
        simpa [hp, not_or, not_le] using hc

/-- The branch for a non-null list is the selection of the spec for that list. -/
theorem prepare_list_spec (env : Collaborators W) (s : HwcState W)
    (l : hwc_display_contents_1_t) :
    prepare_list env s l =
      ({ s with ctx := (specList env s.ctx s.world l).ctx,
                world := (specList env s.ctx s.world l).world,
                trace := s.trace ++ (specList env s.ctx s.world l).calls },
       (specList env s.ctx s.world l).list) := by
  simp only [prepare_list, prepare_chain_spec]
  simp [callReset, callGetLayerStats, callPrepare, callCheckforGPULayer, specList, listPrologue,
    List.append_assoc]

/-- A call without a secure session, for one display with a present list:
prepare returns 0 and does exactly what the selector of the spec does with the
collaborators. -/
theorem hwc_prepare_spec (env : Collaborators W) (s : HwcState W)
    (l : hwc_display_contents_1_t) (hsec : s.ctx.mSecureConfig = false) :
    hwc_prepare env s [some l] =
      some (0, { s with ctx := (specPrepare env s.ctx s.world l).ctx,
                        world := (specPrepare env s.ctx s.world l).world,
                        trace := s.trace ++ (specPrepare env s.ctx s.world l).calls },
            [some (specPrepare env s.ctx s.world l).list]) := by
  have hs : (setOverlayInUse s false).ctx.mSecureConfig = false := hsec
  simp only [hwc_prepare, hs, hwc_prepare_loop, hwc_prepare_display, Option.map,
    prepare_external_spec, prepare_list_spec, setDpy]
  simp [setOverlayInUse, specPrepare, specStart, List.append_assoc]

/-- The external display part makes external setup calls only. -/
theorem specExternal_calls (env : Collaborators W) (ctx : hwc_context_t) (w : W) :
    ∀ c ∈ (specExternal env ctx w).calls, c.isExternalSetup = true := by
  intro c hc
  simp only [specExternal] at hc
  split at hc <;> split at hc <;> simp at hc
  all_goals (try rcases hc with rfl | rfl) <;> rfl

/-- The answers of the priority chain over `strategyOrder`: refusals up to the
first strategy that claims, or five refusals. -/
theorem firstClaim_cases (env : Collaborators W) (f : Frame W) :
    (∃ k c, strategyOrder[k]? = some c ∧
      (firstClaim env strategyOrder f).1 =
        (strategyOrder.take k).map (fun x => (x, false)) ++ [(c, true)]) ∨
    (firstClaim env strategyOrder f).1 = strategyOrder.map (fun x => (x, false)) := by
  by_cases h1 : answer env Component.VideoOverlay f = true
  · exact Or.inl ⟨0, _, rfl, by simp [firstClaim, strategyOrder, h1]⟩
  by_cases h2 : answer env Component.VideoPIP (asked env Component.VideoOverlay f) = true
  · exact Or.inl ⟨1, _, rfl, by simp [firstClaim, strategyOrder, h1, h2]⟩
  by_cases h3 : answer env Component.ExtOnly (asked env Component.VideoPIP
      (asked env Component.VideoOverlay f)) = true
  · exact Or.inl ⟨2, _, rfl, by simp [firstClaim, strategyOrder, h1, h2, h3]⟩
  by_cases h4 : answer env Component.UIMirrorOverlay (asked env Component.ExtOnly
      (asked env Component.VideoPIP (asked env Component.VideoOverlay f))) = true
  · exact Or.inl ⟨3, _, rfl, by simp [firstClaim, strategyOrder, h1, h2, h3, h4]⟩
  by_cases h5 : answer env Component.MDPComp (asked env Component.UIMirrorOverlay
      (asked env Component.ExtOnly (asked env Component.VideoPIP
        (asked env Component.VideoOverlay f)))) = true
  · exact Or.inl ⟨4, _, rfl, by simp [firstClaim, strategyOrder, h1, h2, h3, h4, h5]⟩
  · exact Or.inr (by simp [firstClaim, strategyOrder, h1, h2, h3, h4, h5])

/-- The selector of the spec, taken apart: its answers are those of the priority
chain run from `prepareChainStart`, its calls are external setup, the prologue,
the chain and the GPU-layer pass, and its context is the one the chain leaves. -/
theorem specPrepare_parts (env : Collaborators W) (ctx : hwc_context_t) (w : W)
    (l : hwc_display_contents_1_t) :
    ∃ e b, (specPrepare env ctx w l).answers =
        (firstClaim env strategyOrder (prepareChainStart env ctx w l)).1 ∧
      (specPrepare env ctx w l).calls =
        e ++ (listPrologue b ++ chainCalls (specPrepare env ctx w l).answers ++
          [Call.checkforGPULayer]) ∧
      (∀ c ∈ e, c.isExternalSetup = true) ∧
      (specPrepare env ctx w l).ctx =
        chainCtx (specPrepare env ctx w l).answers
          (firstClaim env strategyOrder (prepareChainStart env ctx w l)).2.ctx :=
  ⟨_, _, rfl, rfl, specExternal_calls env _ w, rfl⟩

/-- The recorded answers of a concatenation are those of its parts. -/
theorem consulted_append (a b : List Call) : consulted (a ++ b) = consulted a ++ consulted b := by
  simp [consulted, List.filterMap_append]

/-- External setup calls carry no applicability answer. -/
theorem consulted_external (e : List Call) (h : ∀ c ∈ e, c.isExternalSetup = true) :
    consulted e = [] := by
  induction e with
  | nil => rfl
  | cons c cs ih =>
    have hc := h c (List.mem_cons_self c cs)
    have hcs := ih (fun x hx => h x (List.mem_cons_of_mem c hx))
    cases c <;> simp_all [consulted, Call.isExternalSetup]

/-- The prologue of the list branch carries no applicability answer. -/
theorem consulted_prologue (b : Bool) : consulted (listPrologue b) = [] := by
  cases b <;> rfl

/-- The answers in a whole prepare trace are those of its chain part. -/
theorem consulted_prepare_trace (e : List Call) (b : Bool) (t : List Call)
    (h : ∀ c ∈ e, c.isExternalSetup = true) :
    consulted (e ++ listPrologue b ++ t ++ [Call.checkforGPULayer]) = consulted t := by
  rw [consulted_append, consulted_append, consulted_append, consulted_external e h,
    consulted_prologue]
  simp [consulted]

/-- The chain calls for concrete answers carry exactly these answers, and the
context after the chain tells whether one of them was an acceptance. -/
theorem chain_answers (answers : List (Component × Bool)) (ctx : hwc_context_t)
    (hno : ∀ x ∈ answers, x.1 ≠ Component.CopyBit) :
    consulted (chainCalls answers) = answers ∧
    ((chainCtx answers ctx).overlayInUse = true ↔ ∃ x ∈ answers, x.2 = true) ∧
    ((∀ x ∈ answers, x.2 = false) →
      (chainCtx answers ctx).mOverlay = eOverlayState.OV_CLOSED ∧
      Call.setState eOverlayState.OV_CLOSED ∈ chainCalls answers) := by
  have hmap : ∀ a : List (Component × Bool), (∀ x ∈ a, x.1 ≠ Component.CopyBit) →
      consulted (a.map (fun x => Call.prepare x.1 x.2)) = a := by
    intro a
    induction a with
    | nil => intro _; rfl
    | cons x xs ih =>
      intro h
      have hx := h x (List.mem_cons_self _ _)
      have hxs := ih (fun y hy => h y (List.mem_cons_of_mem _ hy))
      obtain ⟨c, r⟩ := x
      simp only [consulted] at hxs ⊢
      cases c <;> simp_all
  have hany : claimed answers = true ↔ ∃ x ∈ answers, x.2 = true := by
    simp [claimed, List.any_eq_true]
  refine ⟨?_, ?_, ?_⟩
  · unfold chainCalls
    rw [consulted_append, hmap answers hno]
    split <;> simp [consulted]
  · unfold chainCtx
    by_cases hc : claimed answers = true
    · constructor
      · intro _
        exact hany.mp hc
      · intro _
        simp [hc]
    · constructor
      · intro h
        simp [hc] at h
      · intro h
        exact absurd (hany.mpr h) hc
  · intro hall
    have hc : ¬ claimed answers = true := by
      intro h
      obtain ⟨x, hx, hxt⟩ := hany.mp h
      rw [hall x hx] at hxt
      simp at hxt
    simp [chainCtx, chainCalls, hc]

/-- C1: in a call without a secure session, for a single display whose layer
list is present, prepare returns 0 and does exactly what the selector of the
spec (`specPrepare`) does with the collaborators.  The answers are those the
applicability predicates of the collaborators give when asked in the fixed order
VideoOverlay, PictureInPicture, ExternalOnly, UIMirror, MDPComp, each on what the
one before left, up to the first one that succeeds (`firstClaim`); the
applicability calls of prepare carry exactly these answers.  Hence the strategies
asked are a prefix of the order, every answer before the last is a refusal, and
the chain ends either after all five or on an acceptance; overlayInUse is true
afterwards exactly when some predicate succeeded; and when none succeeded the
overlay state has been set to Closed. -/
theorem hwc_prepare_strategy_chain (env : Collaborators W) (s : HwcState W)
    (l : hwc_display_contents_1_t) (hsec : s.ctx.mSecureConfig = false) :
    ∃ s', hwc_prepare env s [some l] =
        some (0, s', [some (specPrepare env s.ctx s.world l).list]) ∧
      s'.trace = s.trace ++ (specPrepare env s.ctx s.world l).calls ∧
      s'.ctx = (specPrepare env s.ctx s.world l).ctx ∧
      s'.world = (specPrepare env s.ctx s.world l).world ∧
      (specPrepare env s.ctx s.world l).answers =
        (firstClaim env strategyOrder (prepareChainStart env s.ctx s.world l)).1 ∧
      consulted (specPrepare env s.ctx s.world l).calls =
        (specPrepare env s.ctx s.world l).answers ∧
      (specPrepare env s.ctx s.world l).answers.map Prod.fst <+: strategyOrder ∧
      (∀ x ∈ (specPrepare env s.ctx s.world l).answers.dropLast, x.2 = false) ∧
      ((specPrepare env s.ctx s.world l).answers.length = strategyOrder.length ∨
        ∃ c, (specPrepare env s.ctx s.world l).answers.getLast? = some (c, true)) ∧
      (s'.ctx.overlayInUse = true ↔
        ∃ x ∈ (specPrepare env s.ctx s.world l).answers, x.2 = true) ∧
      ((∀ x ∈ (specPrepare env s.ctx s.world l).answers, x.2 = false) →
        s'.ctx.mOverlay = eOverlayState.OV_CLOSED ∧
        Call.setState eOverlayState.OV_CLOSED ∈ (specPrepare env s.ctx s.world l).calls) := by
  obtain ⟨e, b, hA, hcalls, hext, hctx⟩ := specPrepare_parts env s.ctx s.world l
  have hshape : (specPrepare env s.ctx s.world l).answers.map Prod.fst <+: strategyOrder ∧
      (∀ x ∈ (specPrepare env s.ctx s.world l).answers.dropLast, x.2 = false) ∧
      ((specPrepare env s.ctx s.world l).answers.length = strategyOrder.length ∨
        ∃ c, (specPrepare env s.ctx s.world l).answers.getLast? = some (c, true)) ∧
      (∀ x ∈ (specPrepare env s.ctx s.world l).answers, x.1 ≠ Component.CopyBit) := by
    rw [hA]
    rcases firstClaim_cases env (prepareChainStart env s.ctx s.world l) with ⟨k, c, hk, hF⟩ | hF
    · rw [hF]
      rcases k with _ | _ | _ | _ | _ | k
      all_goals simp [strategyOrder] at hk
      all_goals subst hk
      all_goals exact ⟨by decide, by decide, Or.inr ⟨_, rfl⟩, by decide⟩
    · rw [hF]
      exact ⟨by decide, by decide, Or.inl rfl, by decide⟩
  obtain ⟨hpre, hdrop, hlast, hno⟩ := hshape
  obtain ⟨hcons, hiff, hclosed⟩ := chain_answers (specPrepare env s.ctx s.world l).answers
    (firstClaim env strategyOrder (prepareChainStart env s.ctx s.world l)).2.ctx hno
  have hcall : (specPrepare env s.ctx s.world l).calls =
      e ++ listPrologue b ++ chainCalls (specPrepare env s.ctx s.world l).answers ++
        [Call.checkforGPULayer] := by
    rw [hcalls]
    simp [List.append_assoc]
  refine ⟨_, hwc_prepare_spec env s l hsec, rfl, rfl, rfl, hA, ?_, hpre, hdrop, hlast, ?_, ?_⟩
  · rw [hcall, consulted_prepare_trace e b _ hext, hcons]
  · show (specPrepare env s.ctx s.world l).ctx.overlayInUse = true ↔ _
    rw [hctx]
    exact hiff
  · intro hall
    show (specPrepare env s.ctx s.world l).ctx.mOverlay = _ ∧ _
    rw [hctx]
    refine ⟨(hclosed hall).1, ?_⟩
    rw [hcall]
    simp [(hclosed hall).2]

/-- Witness for C1: no secure session, one display with a one-layer list, and
picture-in-picture the only strategy that applies.  Two predicates are asked, and
the world, which logs the collaborator calls really made, shows them. -/
theorem hwc_prepare_strategy_chain_witness :
    (specPrepare pipEnv logState.ctx logState.world validList).answers =
      [(Component.VideoOverlay, false), (Component.VideoPIP, true)] ∧
    (specPrepare pipEnv logState.ctx logState.world validList).world =
      [Call.reset Component.VideoOverlay, Call.reset Component.VideoPIP,
       Call.reset Component.ExtOnly, Call.getLayerStats,
       Call.prepare Component.CopyBit false, Call.prepare Component.VideoOverlay false,
       Call.prepare Component.VideoPIP true, Call.checkforGPULayer] ∧
    ∃ s', hwc_prepare pipEnv logState [some validList] =
        some (0, s', [some (specPrepare pipEnv logState.ctx logState.world validList).list]) ∧
      s'.trace = logState.trace ++
        (specPrepare pipEnv logState.ctx logState.world validList).calls ∧
      s'.ctx = (specPrepare pipEnv logState.ctx logState.world validList).ctx ∧
      s'.world = (specPrepare pipEnv logState.ctx logState.world validList).world ∧
      (specPrepare pipEnv logState.ctx logState.world validList).answers =
        (firstClaim pipEnv strategyOrder
          (prepareChainStart pipEnv logState.ctx logState.world validList)).1 ∧
      consulted (specPrepare pipEnv logState.ctx logState.world validList).calls =
        (specPrepare pipEnv logState.ctx logState.world validList).answers ∧
      (specPrepare pipEnv logState.ctx logState.world validList).answers.map Prod.fst <+:
        strategyOrder ∧
      (∀ x ∈ (specPrepare pipEnv logState.ctx logState.world validList).answers.dropLast,
        x.2 = false) ∧
      ((specPrepare pipEnv logState.ctx logState.world validList).answers.length =
          strategyOrder.length ∨
        ∃ c, (specPrepare pipEnv logState.ctx logState.world validList).answers.getLast? =
          some (c, true)) ∧
      (s'.ctx.overlayInUse = true ↔
        ∃ x ∈ (specPrepare pipEnv logState.ctx logState.world validList).answers,
          x.2 = true) ∧
      ((∀ x ∈ (specPrepare pipEnv logState.ctx logState.world validList).answers,
          x.2 = false) →
        s'.ctx.mOverlay = eOverlayState.OV_CLOSED ∧
        Call.setState eOverlayState.OV_CLOSED ∈
          (specPrepare pipEnv logState.ctx logState.world validList).calls) :=
  ⟨by decide, by decide, hwc_prepare_strategy_chain pipEnv logState validList rfl⟩

/-- C2: while the secure-session flag is set, for any number of displays and any
layer lists (null ones included), prepare returns 0 without calling any
collaborator: the trace and the outside world are unchanged, so no strategy is
reset or asked, and overlayInUse is false afterwards. -/
theorem hwc_prepare_secure (env : Collaborators W) (s : HwcState W)
    (displays : List (Option hwc_display_contents_1_t))
    (hsec : s.ctx.mSecureConfig = true) :
    ∃ s', hwc_prepare env s displays = some (0, s', displays) ∧
      s'.trace = s.trace ∧ s'.world = s.world ∧ s'.ctx.overlayInUse = false ∧
      s'.ctx.mOverlay = s.ctx.mOverlay ∧ s'.ctx.qbuf = s.ctx.qbuf := by
  have hs : (setOverlayInUse s false).ctx.mSecureConfig = true := hsec
  refine ⟨setOverlayInUse s false, ?_, rfl, rfl, rfl, rfl, rfl⟩
  simp [hwc_prepare, hs]

/-- Witness for C2: a secure session with two displays, the second list null. -/
theorem hwc_prepare_secure_witness :
    ∃ s', hwc_prepare quietEnv secureState [some validList, none] =
        some (0, s', [some validList, none]) ∧
      s'.trace = secureState.trace ∧ s'.world = secureState.world ∧
      s'.ctx.overlayInUse = false ∧
      s'.ctx.mOverlay = secureState.ctx.mOverlay ∧ s'.ctx.qbuf = secureState.ctx.qbuf :=
  hwc_prepare_secure quietEnv secureState [some validList, none] rfl

/-- External setup calls release no buffer. -/
theorem external_no_release (e : List Call) (h : ∀ c ∈ e, c.isExternalSetup = true) :
    ∀ c ∈ e, c.isRelease = false := by
  intro c hc
  have := h c hc
  cases c <;> simp_all [Call.isExternalSetup, Call.isRelease]

/-- The chain releases no buffer. -/
theorem chain_no_release (t : List Call) (ctx : hwc_context_t) (h : ChainResult t ctx) :
    ∀ c ∈ t, c.isRelease = false := by
  rcases h with ⟨k, c, hk, rfl, _⟩ | ⟨rfl, _, _⟩
  · rcases k with _ | _ | _ | _ | _ | k
    all_goals simp [strategyOrder] at hk
    all_goals subst hk
    all_goals decide
  · decide

/-- C3 (counterexample): no secure session, display 0 has a present list with no
layers, no strategy applies; prepare returns 0 with overlay Closed and
overlayInUse false, but the two locked buffers are still held: `unlockAll` was
not called on this path. -/
theorem hwc_prepare_empty_list_keeps_buffers :
    busyState.ctx.mSecureConfig = false ∧ emptyList.hwLayers = [] ∧
    ∃ s' ds, hwc_prepare quietEnv busyState [some emptyList] = some (0, s', ds) ∧
      s'.ctx.mOverlay = eOverlayState.OV_CLOSED ∧ s'.ctx.overlayInUse = false ∧
      s'.ctx.qbuf.current = [7] ∧ s'.ctx.qbuf.previous = [6] ∧
      s'.ctx.qbuf.isEmpty = false ∧ Call.unlockAll ∉ s'.trace :=
  ⟨rfl, rfl, _, _, rfl, rfl, rfl, rfl, rfl, rfl, by decide⟩

/-- A null list for a display faults at line 106 (`list->dpy`), whatever the
collaborators: the branch written for a null list is never reached. -/
theorem hwc_prepare_null_list_faults (env : Collaborators W) (s : HwcState W)
    (ds : List (Option hwc_display_contents_1_t)) (hsec : s.ctx.mSecureConfig = false) :
    hwc_prepare env s (none :: ds) = none := by
  have hs : (setOverlayInUse s false).ctx.mSecureConfig = false := hsec
  simp [hwc_prepare, hs, hwc_prepare_loop, hwc_prepare_display]

/-- C3 (amended): in a call without a secure session whose only display has a
present list with no layers, prepare returns 0 and makes no buffer release call;
the list goes through the strategy chain like any present list, and when every
applicability answer is a refusal the overlay state is Closed and overlayInUse
is false afterwards.  (The code never inspects the layers, so the statement
holds for every present list.) -/
theorem hwc_prepare_empty_list (env : Collaborators W) (s : HwcState W)
    (l : hwc_display_contents_1_t) (hsec : s.ctx.mSecureConfig = false)
    (_hempty : l.hwLayers = []) :
    ∃ s' ds t, hwc_prepare env s [some l] = some (0, s', ds) ∧
      s'.trace = s.trace ++ t ∧
      (∀ c ∈ t, c.isRelease = false) ∧
      ((∀ x ∈ consulted t, x.2 = false) →
        s'.ctx.mOverlay = eOverlayState.OV_CLOSED ∧ s'.ctx.overlayInUse = false) := by
  obtain ⟨s', l', e, b, t, hres, htr, hall, hr⟩ := hwc_prepare_single env s l hsec
  refine ⟨s', [some l'], e ++ listPrologue b ++ t ++ [Call.checkforGPULayer], hres, ?_, ?_, ?_⟩
  · rw [htr]
    simp [List.append_assoc]
  · intro c hc
    simp only [List.mem_append, List.mem_singleton] at hc
    rcases hc with ((hc | hc) | hc) | hc
    · exact external_no_release e hall c hc
    · cases b <;> simp [listPrologue] at hc <;> rcases hc with h | h | h | h | h <;> subst h <;> rfl
    · exact chain_no_release t s'.ctx hr c hc
    · subst hc
      rfl
  · rw [consulted_prepare_trace e b t hall]
    rcases hr with ⟨k, c, hk, rfl, ho⟩ | ⟨rfl, ho, hm⟩
    · intro hall2
      exfalso
      have hmem : (c, true) ∈ consulted (chainClaimed k c) := by
        rcases k with _ | _ | _ | _ | _ | k
        all_goals simp [strategyOrder] at hk
        all_goals subst hk
        all_goals decide
      have := hall2 _ hmem
      simp at this
    · intro _
      exact ⟨hm, ho⟩

/-- Witness for C3 (amended): the empty list of the counterexample. -/
theorem hwc_prepare_empty_list_witness :
    ∃ s' ds t, hwc_prepare quietEnv busyState [some emptyList] = some (0, s', ds) ∧
      s'.trace = busyState.trace ++ t ∧
      (∀ c ∈ t, c.isRelease = false) ∧
      ((∀ x ∈ consulted t, x.2 = false) →
        s'.ctx.mOverlay = eOverlayState.OV_CLOSED ∧ s'.ctx.overlayInUse = false) :=
  hwc_prepare_empty_list quietEnv busyState emptyList rfl rfl

end PrepareTheorems

section SetTheorems

variable {W : Type}

/-- A draw appends one call and nothing else. -/
theorem callDraw_trace (env : Collaborators W) (c : Component)
    (p : HwcState W × hwc_display_contents_1_t) :
    (callDraw env c p).1.trace = p.1.trace ++ [Call.draw c] :=
  rfl

/-- The five draw calls of hwc_set are the spec's draws, in the spec's order, and
each one is a call of the collaborator. -/
theorem set_draws_spec (env : Collaborators W) (s : HwcState W)
    (l : hwc_display_contents_1_t) :
    set_draws env (s, l) =
      ({ s with ctx := (specDraws env { ctx := s.ctx, world := s.world, list := l }).ctx,
                world := (specDraws env { ctx := s.ctx, world := s.world, list := l }).world,
                trace := s.trace ++ drawOrder.map Call.draw },
       (specDraws env { ctx := s.ctx, world := s.world, list := l }).list) := by
  simp [set_draws, callDraw, specDraws, drawOrder]

/-- A display with a valid presentation target: the iteration does what
`specDisplay` says, calls and effects. -/
theorem hwc_set_display_valid (env : Collaborators W) (s : HwcState W)
    (l : hwc_display_contents_1_t) (h : l.dpy ≠ 0 ∧ l.sur ≠ 0) :
    hwc_set_display env s (some l) =
      some ({ s with ctx := (specDisplay env s.ctx s.world l).ctx,
                     world := (specDisplay env s.ctx s.world l).world,
                     trace := s.trace ++ (specDisplay env s.ctx s.world l).calls },
            some (specDisplay env s.ctx s.world l).list) := by
  simp only [hwc_set_display, h, and_self, if_true, ne_eq, not_false_eq_true, set_draws_spec]
  by_cases hov : (specDraws env { ctx := s.ctx, world := s.world, list := l }).ctx.hasOverlay = true
  · by_cases hext : env.getExternalDisplay (env.drawUIMirror
        (env.wait4fbPost (specDraws env { ctx := s.ctx, world := s.world, list := l }).ctx
          (env.eglSwapBuffers
            (specDraws env { ctx := s.ctx, world := s.world, list := l }).list.dpy
            (specDraws env { ctx := s.ctx, world := s.world, list := l }).list.sur
            (specDraws env { ctx := s.ctx, world := s.world, list := l }).world)).2.1
        (env.wait4fbPost (specDraws env { ctx := s.ctx, world := s.world, list := l }).ctx
          (env.eglSwapBuffers
            (specDraws env { ctx := s.ctx, world := s.world, list := l }).list.dpy
            (specDraws env { ctx := s.ctx, world := s.world, list := l }).list.sur
            (specDraws env { ctx := s.ctx, world := s.world, list := l }).world)).2.2).2 = 0
    · simp [specDisplay, callSwap, set_post, callWait4fbPost, callDrawUIMirror, callCommit,
        callWait4Pan, hov, hext, displayBlock, drawOrder]
    · simp [specDisplay, callSwap, set_post, callWait4fbPost, callDrawUIMirror, callCommit,
        callWait4Pan, hov, hext, displayBlock, drawOrder]
  · simp [specDisplay, callSwap, hov, displayBlock, drawOrder]

/-- A display whose presentation target is missing: the iteration closes the
overlay and releases all buffers, and does nothing else. -/
theorem hwc_set_display_notarget (env : Collaborators W) (s : HwcState W)
    (l : hwc_display_contents_1_t) (h : l.dpy = 0 ∨ l.sur = 0) :
    hwc_set_display env s (some l) =
      some (unlockAll (setState s eOverlayState.OV_CLOSED), some l) := by
  have hn : ¬ (l.dpy ≠ 0 ∧ l.sur ≠ 0) := by
    rintro ⟨h1, h2⟩
    rcases h with h | h
    · exact h1 h
    · exact h2 h
  simp only [hwc_set_display, hn, if_false]

/-- An iteration of the loop of hwc_set has a result for every non-null list. -/
theorem hwc_set_display_total (env : Collaborators W) (s : HwcState W)
    (l : hwc_display_contents_1_t) :
    ∃ s' l', hwc_set_display env s (some l) = some (s', some l') := by
  by_cases h : l.dpy ≠ 0 ∧ l.sur ≠ 0
  · exact ⟨_, _, hwc_set_display_valid env s l h⟩
  · exact ⟨unlockAll (setState s eOverlayState.OV_CLOSED), l, by
      simp only [hwc_set_display, h, if_false]⟩

/-- The loop of hwc_set has a result when no list is null. -/
theorem hwc_set_loop_total (env : Collaborators W) (displays : List (Option hwc_display_contents_1_t))
    (hnn : ∀ d ∈ displays, d ≠ none) (s : HwcState W) :
    ∃ s' ds, hwc_set_loop env s displays = some (s', ds) := by
  induction displays generalizing s with
  | nil => exact ⟨s, [], rfl⟩
  | cons d ds ih =>
    cases d with
    | none => exact absurd rfl (hnn none (List.mem_cons_self _ _))
    | some l =>
      obtain ⟨s1, l1, h1⟩ := hwc_set_display_total env s l
      obtain ⟨s2, ds2, h2⟩ := ih (fun x hx => hnn x (List.mem_cons_of_mem _ hx)) s1
      exact ⟨s2, some l1 :: ds2, by simp [hwc_set_loop, h1, h2]⟩

/-- The loop over `a ++ b` is the loop over `a` followed by the loop over `b`. -/
theorem hwc_set_loop_append (env : Collaborators W)
    (a b : List (Option hwc_display_contents_1_t)) (s s1 s2 : HwcState W)
    (da db : List (Option hwc_display_contents_1_t))
    (ha : hwc_set_loop env s a = some (s1, da)) (hb : hwc_set_loop env s1 b = some (s2, db)) :
    hwc_set_loop env s (a ++ b) = some (s2, da ++ db) := by
  induction a generalizing s da with
  | nil =>
    simp [hwc_set_loop] at ha
    obtain ⟨rfl, rfl⟩ := ha
    simpa using hb
  | cons d ds ih =>
    simp only [hwc_set_loop, List.cons_append] at ha ⊢
    cases hd : hwc_set_display env s d with
    | none => simp [hd] at ha
    | some r =>
      simp only [hd] at ha ⊢
      cases hl : hwc_set_loop env r.1 ds with
      | none => simp [hl] at ha
      | some rs =>
        simp only [hl, Option.some.injEq, Prod.mk.injEq] at ha
        obtain ⟨rfl, rfl⟩ := ha
        have := ih r.1 rs.2 (by rw [hl]) 
        simp [this]

/-- A display block releases no buffer. -/
theorem displayBlock_no_release (dpy sur : Nat) (ov ext : Bool) :
    ∀ c ∈ displayBlock dpy sur ov ext, c.isRelease = false := by
  have hall : (displayBlock dpy sur ov ext).all (fun c => !c.isRelease) = true := by
    cases ov <;> cases ext <;> rfl
  intro c hc
  have := List.all_eq_true.mp hall c hc
  simpa using this

/-- The calls `specDisplay` lists are one display block. -/
theorem specDisplay_calls (env : Collaborators W) (ctx : hwc_context_t) (w : W)
    (l : hwc_display_contents_1_t) :
    ∃ dpy sur ov ext, (specDisplay env ctx w l).calls = displayBlock dpy sur ov ext := by
  simp only [specDisplay]
  split
  · exact ⟨_, _, _, _, rfl⟩
  · exact ⟨_, _, _, _, rfl⟩

/-- The set cycle of the spec has one block per display, every block is a display
block, and no block holds a buffer release. -/
theorem specSet_blocks (env : Collaborators W) (ls : List hwc_display_contents_1_t)
    (ctx : hwc_context_t) (w : W) :
    (specSet env ctx w ls).blocks.length = ls.length ∧
    (∀ b ∈ (specSet env ctx w ls).blocks, ∃ dpy sur ov ext, b = displayBlock dpy sur ov ext) ∧
    ∀ c ∈ (specSet env ctx w ls).blocks.flatten, c.isRelease = false := by
  induction ls generalizing ctx w with
  | nil => simp [specSet]
  | cons l rest ih =>
    obtain ⟨h1, h2, h3⟩ := ih (specDisplay env ctx w l).ctx (specDisplay env ctx w l).world
    refine ⟨by simp [specSet, h1], ?_, ?_⟩
    · intro b hb
      simp only [specSet, List.mem_cons] at hb
      rcases hb with hb | hb
      · rw [hb]
        exact specDisplay_calls env ctx w l
      · exact h2 b hb
    · intro c hc
      simp only [specSet, List.flatten_cons, List.mem_append] at hc
      rcases hc with hc | hc
      · obtain ⟨dpy, sur, ov, ext, hb⟩ := specDisplay_calls env ctx w l
        rw [hb] at hc
        exact displayBlock_no_release dpy sur ov ext c hc
      · exact h3 c hc

/-- The loop of hwc_set over displays that all have a valid presentation target
does what `specSet` says, calls and effects. -/
theorem hwc_set_loop_valid (env : Collaborators W) (ls : List hwc_display_contents_1_t)
    (hvalid : ∀ l ∈ ls, l.dpy ≠ 0 ∧ l.sur ≠ 0) (s : HwcState W) :
    hwc_set_loop env s (ls.map some) =
      some ({ s with ctx := (specSet env s.ctx s.world ls).ctx,
                     world := (specSet env s.ctx s.world ls).world,
                     trace := s.trace ++ (specSet env s.ctx s.world ls).blocks.flatten },
            (specSet env s.ctx s.world ls).lists.map some) := by
  induction ls generalizing s with
  | nil => simp [hwc_set_loop, specSet]
  | cons l rest ih =>
    have hl := hvalid l (List.mem_cons_self _ _)
    have hr := ih (fun x hx => hvalid x (List.mem_cons_of_mem _ hx))
      { s with ctx := (specDisplay env s.ctx s.world l).ctx,
               world := (specDisplay env s.ctx s.world l).world,
               trace := s.trace ++ (specDisplay env s.ctx s.world l).calls }
    simp only [List.map_cons, hwc_set_loop, hwc_set_display_valid env s l hl, hr]
    simp [specSet, List.append_assoc]

/-- C4: when every display of a hwc_set call has a valid presentation target, set
returns 0 and does exactly what the spec's cycle `specSet` does with the
collaborators, followed by one release of the previous frame's buffers.  Its
calls are, display by display in index order, draw VideoOverlay, draw
PictureInPicture, draw ExternalOnly, draw CopyBit, draw MDPComp, the buffer swap
on the display's target and, only if the context says the backend has overlay,
wait-for-post, draw UIMirror, the external commit only if an external display is
attached at that moment, wait-for-pan; then exactly one `unlockAllPrevious`.
The context, the world and the lists set leaves are those the collaborators
produce when called in that order.  No block holds a buffer release, so none
precedes the last swap, and `unlockAll` is never called. -/
theorem hwc_set_call_sequence (env : Collaborators W) (s : HwcState W)
    (ls : List hwc_display_contents_1_t) (hvalid : ∀ l ∈ ls, l.dpy ≠ 0 ∧ l.sur ≠ 0) :
    ∃ s', hwc_set env s (ls.map some) =
        some (0, s', (specSet env s.ctx s.world ls).lists.map some) ∧
      s'.trace = s.trace ++ (specSet env s.ctx s.world ls).blocks.flatten ++
        [Call.unlockAllPrevious] ∧
      s'.world = (specSet env s.ctx s.world ls).world ∧
      s'.ctx = { (specSet env s.ctx s.world ls).ctx with
        qbuf := (specSet env s.ctx s.world ls).ctx.qbuf.unlockAllPrevious } ∧
      (specSet env s.ctx s.world ls).blocks.length = ls.length ∧
      (∀ b ∈ (specSet env s.ctx s.world ls).blocks,
        ∃ dpy sur ov ext, b = displayBlock dpy sur ov ext) ∧
      (∀ c ∈ (specSet env s.ctx s.world ls).blocks.flatten, c.isRelease = false) ∧
      Call.unlockAll ∉ (specSet env s.ctx s.world ls).blocks.flatten ++
        [Call.unlockAllPrevious] := by
  obtain ⟨hlen, hshape, hrel⟩ := specSet_blocks env ls s.ctx s.world
  refine ⟨unlockAllPrevious
    { s with ctx := (specSet env s.ctx s.world ls).ctx,
             world := (specSet env s.ctx s.world ls).world,
             trace := s.trace ++ (specSet env s.ctx s.world ls).blocks.flatten },
    ?_, rfl, rfl, rfl, hlen, hshape, hrel, ?_⟩
  · simp only [hwc_set, hwc_set_loop_valid env ls hvalid s]
  · intro hmem
    rcases List.mem_append.mp hmem with h | h
    · have := hrel _ h
      simp [Call.isRelease] at this
    · simp at h

/-- Witness for C4: two displays with different valid targets, an overlay backend
and an external display attached.  The blocks come in index order, and the
world, which logs the collaborator calls really made, shows the same sequence. -/
theorem hwc_set_call_sequence_witness :
    (specSet attachedEnv logState.ctx logState.world [validList, secondList]).blocks =
      [displayBlock 1 1 true true, displayBlock 2 3 true true] ∧
    (specSet attachedEnv logState.ctx logState.world [validList, secondList]).world =
      displayBlock 1 1 true true ++ displayBlock 2 3 true true ∧
    ∃ s', hwc_set attachedEnv logState ([validList, secondList].map some) =
        some (0, s', (specSet attachedEnv logState.ctx logState.world
          [validList, secondList]).lists.map some) ∧
      s'.trace = logState.trace ++ (specSet attachedEnv logState.ctx logState.world
          [validList, secondList]).blocks.flatten ++ [Call.unlockAllPrevious] ∧
      s'.world = (specSet attachedEnv logState.ctx logState.world
          [validList, secondList]).world ∧
      s'.ctx = { (specSet attachedEnv logState.ctx logState.world
          [validList, secondList]).ctx with
        qbuf := (specSet attachedEnv logState.ctx logState.world
          [validList, secondList]).ctx.qbuf.unlockAllPrevious } ∧
      (specSet attachedEnv logState.ctx logState.world [validList, secondList]).blocks.length =
        [validList, secondList].length ∧
      (∀ b ∈ (specSet attachedEnv logState.ctx logState.world [validList, secondList]).blocks,
        ∃ dpy sur ov ext, b = displayBlock dpy sur ov ext) ∧
      (∀ c ∈ (specSet attachedEnv logState.ctx logState.world
          [validList, secondList]).blocks.flatten, c.isRelease = false) ∧
      Call.unlockAll ∉ (specSet attachedEnv logState.ctx logState.world
          [validList, secondList]).blocks.flatten ++ [Call.unlockAllPrevious] :=
  ⟨by decide, by decide,
    hwc_set_call_sequence attachedEnv logState [validList, secondList] (by
      intro l hl
      simp only [List.mem_cons, List.mem_singleton, List.not_mem_nil, or_false] at hl
      rcases hl with rfl | rfl
      · exact ⟨by decide, by decide⟩
      · exact ⟨by decide, by decide⟩)⟩

/-- C5: a display of a hwc_set call whose presentation target is missing (display
handle or surface null) while its list is present.  The displays before it
(`pre`) are processed; for this display set makes exactly two calls, the overlay
state to Closed and `unlockAll`, so no draw and no buffer swap, and leaves the
overlay Closed and no buffer locked; the displays after it (`post`) are processed
from that state; then comes the release of the previous frame's buffers and set
returns 0.  The other lists are assumed non-null.  Nothing depends on the layers
of the list, so the statement covers the non-empty lists of the scenario. -/
theorem hwc_set_missing_target (env : Collaborators W) (s : HwcState W)
    (pre post : List (Option hwc_display_contents_1_t)) (l : hwc_display_contents_1_t)
    (hnn : ∀ d ∈ pre ++ post, d ≠ none) (htarget : l.dpy = 0 ∨ l.sur = 0) :
    ∃ s1 d1 sc s2 d2 s',
      hwc_set_loop env s pre = some (s1, d1) ∧
      hwc_set_display env s1 (some l) = some (sc, some l) ∧
      sc.trace = s1.trace ++ [Call.setState eOverlayState.OV_CLOSED, Call.unlockAll] ∧
      sc.ctx.mOverlay = eOverlayState.OV_CLOSED ∧
      sc.ctx.qbuf.current = [] ∧ sc.ctx.qbuf.previous = [] ∧
      sc.world = s1.world ∧
      hwc_set_loop env sc post = some (s2, d2) ∧
      hwc_set env s (pre ++ some l :: post) = some (0, s', d1 ++ some l :: d2) ∧
      s'.trace = s2.trace ++ [Call.unlockAllPrevious] := by
  obtain ⟨s1, d1, h1⟩ := hwc_set_loop_total env pre
    (fun d hd => hnn d (List.mem_append_left _ hd)) s
  obtain ⟨s2, d2, h2⟩ := hwc_set_loop_total env post
    (fun d hd => hnn d (List.mem_append_right _ hd))
    (unlockAll (setState s1 eOverlayState.OV_CLOSED))
  have hd := hwc_set_display_notarget env s1 l htarget
  have hmid : hwc_set_loop env s1 (some l :: post) = some (s2, some l :: d2) := by
    simp [hwc_set_loop, hd, h2]
  have hall := hwc_set_loop_append env pre (some l :: post) s s1 s2 d1 (some l :: d2) h1 hmid
  refine ⟨s1, d1, unlockAll (setState s1 eOverlayState.OV_CLOSED), s2, d2,
    unlockAllPrevious s2, h1, hd, ?_, rfl, rfl, rfl, rfl, h2, ?_, rfl⟩
  · simp [unlockAll, setState]
  · simp [hwc_set, hall]

/-- Witness for C5: three displays, the middle one without a surface. -/
theorem hwc_set_missing_target_witness :
    ∃ s1 d1 sc s2 d2 s',
      hwc_set_loop quietEnv busyState [some validList] = some (s1, d1) ∧
      hwc_set_display quietEnv s1 (some noSurfaceList) = some (sc, some noSurfaceList) ∧
      sc.trace = s1.trace ++ [Call.setState eOverlayState.OV_CLOSED, Call.unlockAll] ∧
      sc.ctx.mOverlay = eOverlayState.OV_CLOSED ∧
      sc.ctx.qbuf.current = [] ∧ sc.ctx.qbuf.previous = [] ∧
      sc.world = s1.world ∧
      hwc_set_loop quietEnv sc [some emptyList] = some (s2, d2) ∧
      hwc_set quietEnv busyState ([some validList] ++ some noSurfaceList :: [some emptyList]) =
        some (0, s', d1 ++ some noSurfaceList :: d2) ∧
      s'.trace = s2.trace ++ [Call.unlockAllPrevious] :=
  hwc_set_missing_target quietEnv busyState [some validList] [some emptyList] noSurfaceList
    (by decide) (Or.inr rfl)

/-- C10 (counterexample): both waits time out, the display has a valid target and
the context an overlay backend; set calls both waits and returns 0. -/
theorem hwc_set_timeout_returns_zero :
    (∀ c w, (timeoutEnv.wait4fbPost c w).1 = WaitResult.timedOut) ∧
    (∀ c w, (timeoutEnv.wait4Pan c w).1 = WaitResult.timedOut) ∧
    ∃ s' ds, hwc_set timeoutEnv busyState [some validList] = some (0, s', ds) ∧
      Call.wait4fbPost ∈ s'.trace ∧ Call.wait4Pan ∈ s'.trace :=
  ⟨fun _ _ => rfl, fun _ _ => rfl, _, _, rfl, by decide, by decide⟩

/-- C10 (amended): hwc_set does not look at what the post-completion and
pan-completion waits report: whenever no list pointer of the call is null, set
returns 0, whatever the waits and every other collaborator do. -/
theorem hwc_set_status_zero (env : Collaborators W) (s : HwcState W)
    (displays : List (Option hwc_display_contents_1_t))
    (hnn : ∀ d ∈ displays, d ≠ none) :
    ∃ s' ds, hwc_set env s displays = some (0, s', ds) := by
  obtain ⟨s1, ds, h⟩ := hwc_set_loop_total env displays hnn s
  exact ⟨unlockAllPrevious s1, ds, by simp [hwc_set, h]⟩

/-- Witness for C10 (amended): the call of the counterexample, waits timing out. -/
theorem hwc_set_status_zero_witness :
    ∃ s' ds, hwc_set timeoutEnv busyState [some validList] = some (0, s', ds) :=
  hwc_set_status_zero timeoutEnv busyState [some validList] (by decide)

end SetTheorems

section ConcreteCalls

/-- The calls of one prepare in which picture-in-picture is the only strategy
that applies: the chain stops after its acceptance. -/
theorem hwc_prepare_trace_pip :
    (hwc_prepare (testEnv (fun c => decide (c = Component.VideoPIP)) 0 false 0 0 0
        WaitResult.completed) busyState [some validList]).map (fun r => (r.1, r.2.1.trace)) =
      some (0, [Call.reset Component.VideoOverlay, Call.reset Component.VideoPIP,
        Call.reset Component.ExtOnly, Call.getLayerStats,
        Call.prepare Component.CopyBit false, Call.prepare Component.VideoOverlay false,
        Call.prepare Component.VideoPIP true, Call.checkforGPULayer]) := by
  decide

/-- The calls of one prepare in which no strategy applies. -/
theorem hwc_prepare_trace_none :
    (hwc_prepare quietEnv busyState [some validList]).map (fun r => (r.1, r.2.1.trace)) =
      some (0, [Call.reset Component.VideoOverlay, Call.reset Component.VideoPIP,
        Call.reset Component.ExtOnly, Call.getLayerStats,
        Call.prepare Component.CopyBit false, Call.prepare Component.VideoOverlay false,
        Call.prepare Component.VideoPIP false, Call.prepare Component.ExtOnly false,
        Call.prepare Component.UIMirrorOverlay false, Call.prepare Component.MDPComp false,
        Call.setState eOverlayState.OV_CLOSED, Call.checkforGPULayer]) := by
  decide

/-- The calls of one set over a display with a valid target and one without a
surface, with an overlay backend and an external display attached. -/
theorem hwc_set_trace_two_displays :
    (hwc_set (testEnv (fun _ => false) 1 true 0 0 0 WaitResult.completed) busyState
        [some validList, some noSurfaceList]).map (fun r => (r.1, r.2.1.trace)) =
      some (0, [Call.draw Component.VideoOverlay, Call.draw Component.VideoPIP,
        Call.draw Component.ExtOnly, Call.draw Component.CopyBit,
        Call.draw Component.MDPComp, Call.eglSwapBuffers 1 1, Call.wait4fbPost,
        Call.draw Component.UIMirrorOverlay, Call.commit, Call.wait4Pan,
        Call.setState eOverlayState.OV_CLOSED, Call.unlockAll,
        Call.unlockAllPrevious]) := by
  decide

/-- A null list in a set call faults at line 244. -/
theorem hwc_set_null_list_faults :
    (hwc_set quietEnv busyState [some validList, none]).isNone = true := by
  decide

/-- An event other than VSYNC is refused with `-EINVAL` and changes nothing. -/
theorem hwc_eventControl_other_event :
    (hwc_eventControl quietEnv busyState 0 7 1).1 = -22 ∧
    (hwc_eventControl quietEnv busyState 0 7 1).2.trace = [] := by
  decide

end ConcreteCalls

end qhwc
